import Mathlib

/-! Hotel microservices: availability, search fan-out and reservation admission.

A shallow embedding of the handlers

* `UserService.checkAvailability`, `UserService.createReservation` and
  `UserService.validateWithAmadeus` of `user-service/main.go`;
* `SearchService.searchHotels`, `SearchService.checkAvailability`,
  `SearchService.listenForHotelUpdates`, `SearchService.indexHotel` and
  `SearchService.deleteHotelFromIndex` of `search-service/main.go`;
* `HotelService.publishHotelUpdate` of `hotel-service/main.go`.

The MySQL tables, the memcached instance and the search index are explicit
state; the clock, backend failures and the external provider are explicit
inputs (`Env`, `AdmissionEnv`, `IndexEnv`). Every handler returns its HTTP response, the next state and
the list of backend operations it issued.
-/

namespace HotelMicroservices

/-! ## Data model -/

/-- A calendar day (the value of a MySQL `DATE` column), as a number that grows
with the calendar. -/
abbrev Date := Nat

/-- A decoded JSON value (Go `interface{}` as `encoding/json` fills it in). -/
inductive JValue where
  | null
  | bool (b : Bool)
  | number (n : Int)
  | string (s : String)
  | array (items : List JValue)
  | object (fields : List (String × JValue))
deriving Repr

mutual
/-- Equality of JSON values is decidable. -/
def JValue.decEq : (a b : JValue) → Decidable (a = b)
  | .null, .null => isTrue rfl
  | .bool a, .bool b =>
    if h : a = b then isTrue (congrArg _ h) else isFalse (fun h' => h (JValue.bool.inj h'))
  | .number a, .number b =>
    if h : a = b then isTrue (congrArg _ h) else isFalse (fun h' => h (JValue.number.inj h'))
  | .string a, .string b =>
    if h : a = b then isTrue (congrArg _ h) else isFalse (fun h' => h (JValue.string.inj h'))
  | .array a, .array b =>
    match JValue.decEqItems a b with
    | isTrue h => isTrue (congrArg _ h)
    | isFalse h => isFalse (fun h' => h (JValue.array.inj h'))
  | .object a, .object b =>
    match JValue.decEqFields a b with
    | isTrue h => isTrue (congrArg _ h)
    | isFalse h => isFalse (fun h' => h (JValue.object.inj h'))
  | .null, .bool _ | .null, .number _ | .null, .string _ | .null, .array _ | .null, .object _
  | .bool _, .null | .bool _, .number _ | .bool _, .string _ | .bool _, .array _ | .bool _, .object _
  | .number _, .null | .number _, .bool _ | .number _, .string _ | .number _, .array _
  | .number _, .object _
  | .string _, .null | .string _, .bool _ | .string _, .number _ | .string _, .array _
  | .string _, .object _
  | .array _, .null | .array _, .bool _ | .array _, .number _ | .array _, .string _
  | .array _, .object _
  | .object _, .null | .object _, .bool _ | .object _, .number _ | .object _, .string _
  | .object _, .array _ => isFalse (fun h => JValue.noConfusion h)
/-- Equality of lists of JSON values is decidable. -/
def JValue.decEqItems : (a b : List JValue) → Decidable (a = b)
  | [], [] => isTrue rfl
  | [], _ :: _ => isFalse (fun h => List.noConfusion h)
  | _ :: _, [] => isFalse (fun h => List.noConfusion h)
  | x :: xs, y :: ys =>
    match JValue.decEq x y, JValue.decEqItems xs ys with
    | isTrue h1, isTrue h2 => isTrue (by rw [h1, h2])
    | isFalse h1, _ => isFalse (fun h => h1 (List.cons.inj h).1)
    | _, isFalse h2 => isFalse (fun h => h2 (List.cons.inj h).2)
/-- Equality of lists of JSON fields is decidable. -/
def JValue.decEqFields : (a b : List (String × JValue)) → Decidable (a = b)
  | [], [] => isTrue rfl
  | [], _ :: _ => isFalse (fun h => List.noConfusion h)
  | _ :: _, [] => isFalse (fun h => List.noConfusion h)
  | (k, x) :: xs, (l, y) :: ys =>
    if hk : k = l then
      match JValue.decEq x y, JValue.decEqFields xs ys with
      | isTrue h1, isTrue h2 => isTrue (by rw [hk, h1, h2])
      | isFalse h1, _ => isFalse (fun h => h1 (Prod.mk.inj (List.cons.inj h).1).2)
      | _, isFalse h2 => isFalse (fun h => h2 (List.cons.inj h).2)
    else isFalse (fun h => hk (Prod.mk.inj (List.cons.inj h).1).1)
end

instance : DecidableEq JValue := JValue.decEq

/-- A decoded JSON object (`map[string]interface{}` / `gin.H`), keys in the
sorted order `encoding/json` writes them. -/
abbrev JObject := List (String × JValue)

/-- Go struct `Reservation` of user-service (`created_at`, which the store
fills in by default and no handler reads, is left out). -/
structure Reservation where
  ID : Int
  UserID : Int
  HotelID : String
  CheckIn : Date
  CheckOut : Date
  Status : String
  AmadeusID : String
deriving DecidableEq, Repr

/-- A memcached item: `Value` is the decoded form of the stored bytes (`none`
when they do not decode to a JSON object), `expiresAt` the absolute second at
which the item stops being served. -/
structure Item where
  Key : String
  Value : Option JObject
  expiresAt : Nat
deriving DecidableEq, Repr

/-- State behind user-service: the `reservations` table (rows in insertion
order, with its auto-increment counter), the `hotel_mapping` table and the
memcached content. -/
structure State where
  reservations : List Reservation
  nextID : Int
  hotel_mapping : List (String × String)
  cache : List Item
deriving DecidableEq, Repr

/-- The state of a fresh deployment: empty tables, empty cache. -/
def State.empty : State := ⟨[], 1, [], []⟩

/-- Backend operations a user-service handler issues, in program order. -/
inductive Effect where
  | cacheGet (key : String)
  | cacheSet (key : String)
  | storeQuery (hotelID checkIn checkOut : String)
  | mappingQuery (hotelID : String)
  | mappingInsert (hotelID amadeusID : String)
  | storeInsert (r : Reservation)
deriving DecidableEq, Repr

/-- What the environment does during one `checkAvailability` request. -/
structure Env where
  /-- wall clock, in seconds -/
  now : Nat
  /-- memcached operations (`Get`, `Set`) return an error -/
  cacheErr : Bool
  /-- the `SELECT COUNT(*)` on `reservations` returns an error -/
  queryErr : Bool
deriving DecidableEq, Repr

/-- An HTTP response of the availability endpoint: status code and JSON body
(`none` is the body `null`). -/
structure Response where
  status : Nat
  body : Option JObject
deriving DecidableEq, Repr

/-- What a handler run produces. -/
structure Outcome (ρ : Type) where
  resp : ρ
  state : State
  trace : List Effect

/-! ## memcached -/

namespace Memcached

/-- Method `memcache.Client.Get`: the live item stored under `key`, if any; an error
(here `none`, the handler only tests `err == nil`) on a miss, on an expired
item or when the backend fails. -/
def get (cacheErr : Bool) (now : Nat) (cache : List Item) (key : String) : Option Item :=
  if cacheErr then none
  else
    match cache.find? (fun it => it.Key == key) with
    | some it => if now < it.expiresAt then some it else none
    | none => none

/-- Method `memcache.Client.Set`: replaces whatever is stored under the item's key;
nothing is stored when the backend fails. -/
def set (cacheErr : Bool) (cache : List Item) (item : Item) : List Item :=
  if cacheErr then cache
  else item :: cache.filter (fun it => !(it.Key == item.Key))

end Memcached

/-! ## user-service: the Availability Oracle -/

namespace UserService

/-- The `WHERE` clause of the availability query, on one row: `hotel_id = ? AND
status = 'confirmed' AND ((check_in <= ? AND check_out > ?) OR (check_in < ? AND
check_out >= ?))` with parameters `hotelID, checkIn, checkIn, checkOut,
checkOut`. Text is compared exactly and dates by calendar order. -/
def sqlMatches (hotelID : String) (checkIn checkOut : Date) (r : Reservation) : Bool :=
  r.HotelID == hotelID && r.Status == "confirmed" &&
    ((decide (r.CheckIn ≤ checkIn) && decide (r.CheckOut > checkIn)) ||
     (decide (r.CheckIn < checkOut) && decide (r.CheckOut ≥ checkOut)))

/-- The query `SELECT COUNT(*) FROM reservations WHERE ...` followed by `Scan(&count)`:
`none` when the store reports an error. -/
def queryCount (queryErr : Bool) (rows : List Reservation) (hotelID : String)
    (checkIn checkOut : Date) : Option Nat :=
  if queryErr then none
  else some (rows.filter (sqlMatches hotelID checkIn checkOut)).length

/-- The cache key `fmt.Sprintf("availability_%s_%s_%s", hotelID, checkIn, checkOut)`. -/
def cacheKey (hotelID checkIn checkOut : String) : String :=
  "availability_" ++ hotelID ++ "_" ++ checkIn ++ "_" ++ checkOut

/-- The result map built on a cache miss. -/
def resultMap (available : Bool) (hotelID checkIn checkOut : String) : JObject :=
  [("available", .bool available), ("check_in", .string checkIn),
   ("check_out", .string checkOut), ("hotel_id", .string hotelID)]

/-- Handler `UserService.checkAvailability` (`GET /availability`). `toDate` is
the store's reading of a bound string parameter as a `DATE`. The error of the
store query is assigned but never tested, so `count` keeps its zero value when
the query fails. -/
def checkAvailability (toDate : String → Date) (env : Env) (st : State)
    (hotelID checkIn checkOut : String) : Outcome Response :=
  if hotelID = "" ∨ checkIn = "" ∨ checkOut = "" then
    ⟨⟨400, some [("error", .string "Missing required parameters")]⟩, st, []⟩
  else
    let key := cacheKey hotelID checkIn checkOut
    match Memcached.get env.cacheErr env.now st.cache key with
    | some item => ⟨⟨200, item.Value⟩, st, [.cacheGet key]⟩
    | none =>
      let count : Nat :=
        match queryCount env.queryErr st.reservations hotelID (toDate checkIn) (toDate checkOut) with
        | some n => n
        | none => 0
      let available := count == 0
      let result := resultMap available hotelID checkIn checkOut
      let cache' := Memcached.set env.cacheErr st.cache ⟨key, some result, env.now + 10⟩
      ⟨⟨200, some result⟩, { st with cache := cache' },
        [.cacheGet key, .storeQuery hotelID checkIn checkOut, .cacheSet key]⟩

end UserService

/-! ## user-service: the Reservation Admission Controller -/

/-- The service configuration read from the environment at start-up. -/
structure Config where
  amadeusClientID : String
  amadeusSecret : String
deriving DecidableEq, Repr

/-- What the environment does during one `createReservation` request. -/
structure AdmissionEnv where
  /-- result of `getAmadeusToken`: the access token, `none` when the call returns an error -/
  token : Option String
  /-- the hotel-offers request for `(amadeusID, checkIn, checkOut, token)`: the
  HTTP status, `none` when building or sending the request fails -/
  offers : String → Date → Date → String → Option Nat
  /-- the `SELECT` on `hotel_mapping` returns an error -/
  mappingErr : Bool
  /-- the `INSERT` into `hotel_mapping` returns an error -/
  mappingInsertErr : Bool
  /-- the `INSERT` into `reservations` returns this error -/
  insertErr : Option String

/-- JSON body of a `POST /reservations` response. -/
inductive CreateBody where
  | error (msg : String)
  | reservation (r : Reservation)
deriving DecidableEq, Repr

/-- An HTTP response of `POST /reservations`. -/
structure CreateResponse where
  status : Nat
  body : CreateBody
deriving DecidableEq, Repr

namespace UserService

/-- Method `UserService.validateWithAmadeus`: `(valid, amadeusID)`. A hotel
without a row in `hotel_mapping` gets the sample id `YXPARKPR`, which the
method also tries to store. -/
def validateWithAmadeus (env : AdmissionEnv) (st : State) (hotelID : String)
    (checkIn checkOut : Date) : Outcome (Bool × String) :=
  match env.token with
  | none => ⟨(false, ""), st, []⟩
  | some token =>
    let found : Option String :=
      if env.mappingErr then none else st.hotel_mapping.lookup hotelID
    let amadeusID := found.getD "YXPARKPR"
    let st' : State :=
      match found with
      | some _ => st
      | none =>
        if env.mappingInsertErr ∨ (st.hotel_mapping.lookup hotelID).isSome then st
        else { st with hotel_mapping := st.hotel_mapping ++ [(hotelID, amadeusID)] }
    let trace : List Effect :=
      match found with
      | some _ => [.mappingQuery hotelID]
      | none => [.mappingQuery hotelID, .mappingInsert hotelID amadeusID]
    match env.offers amadeusID checkIn checkOut token with
    | none => ⟨(false, ""), st', trace⟩
    | some code =>
      if code = 200 then ⟨(true, amadeusID), st', trace⟩
      else ⟨(false, ""), st', trace⟩

/-- The statement `db.Exec("INSERT INTO reservations (user_id, hotel_id, check_in, check_out,
status, amadeus_id) VALUES ...")` followed by `LastInsertId`: the row gets the
next auto-increment id. -/
def insertReservation (st : State) (r : Reservation) : State × Int :=
  ({ st with reservations := st.reservations ++ [{ r with ID := st.nextID }],
             nextID := st.nextID + 1 }, st.nextID)

/-- The tail of `createReservation`, from `s.db.Exec` on: insert the row and
answer 201 with the reservation carrying its new id, or answer 500 with the
store's error. -/
def persist (env : AdmissionEnv) (st : State) (trace : List Effect)
    (reservation : Reservation) : Outcome CreateResponse :=
  match env.insertErr with
  | some msg => ⟨⟨500, .error msg⟩, st, trace ++ [.storeInsert reservation]⟩
  | none =>
    ⟨⟨201, .reservation { reservation with ID := (insertReservation st reservation).2 }⟩,
      (insertReservation st reservation).1, trace ++ [.storeInsert reservation]⟩

/-- Handler `UserService.createReservation` (`POST /reservations`). `body` is
what `ShouldBindJSON` yields (the bound struct, or the text of its error),
`userID` the caller identity set by the auth middleware. -/
def createReservation (cfg : Config) (env : AdmissionEnv) (st : State)
    (body : Except String Reservation) (userID : Int) : Outcome CreateResponse :=
  match body with
  | .error msg => ⟨⟨400, .error msg⟩, st, []⟩
  | .ok bound =>
    let reservation := { bound with UserID := userID }
    if cfg.amadeusClientID ≠ "" ∧ cfg.amadeusSecret ≠ "" then
      let v := validateWithAmadeus env st reservation.HotelID reservation.CheckIn
        reservation.CheckOut
      if v.resp.1 = false then
        ⟨⟨400, .error "Reservation not available"⟩, v.state, v.trace⟩
      else
        persist env v.state v.trace
          { reservation with AmadeusID := v.resp.2, Status := "confirmed" }
    else
      persist env st [] { reservation with Status := "pending" }

end UserService

/-! ## search-service: the Query Coordinator -/

/-- Go struct `SolrDoc`: a document of the search index. -/
structure SolrDoc where
  ID : String
  Name : String
  Description : String
  City : String
  Address : String
  Amenities : List String
  Images : List String
  Thumbnail : String
  AmadeusID : String
deriving DecidableEq, Repr

/-- Go struct `Hotel` of search-service. -/
structure Hotel where
  ID : String
  Name : String
  Description : String
  City : String
  Address : String
  Amenities : List String
  Images : List String
  Thumbnail : String
  AmadeusID : String
  Available : Bool
deriving DecidableEq, Repr

/-- Go struct `SearchResult`. -/
structure SearchResult where
  Hotels : List Hotel
  Total : Nat
deriving DecidableEq, Repr

/-- What the Solr `select` request yields: a transport error, an unreadable
body, a body that does not parse, or the documents of `response.docs`. -/
inductive SolrReply where
  | getError
  | readError
  | parseError
  | ok (docs : List SolrDoc)
deriving DecidableEq, Repr

/-- What `http.Get` on the availability endpoint followed by decoding the body
into a `map[string]interface{}` yields. -/
inductive HttpResult where
  | transportError
  | undecodable
  | decoded (result : JObject)
deriving DecidableEq, Repr

/-- JSON body of a `GET /search` response. -/
inductive SearchBody where
  | error (msg : String)
  | result (r : SearchResult)
deriving DecidableEq, Repr

/-- An HTTP response of `GET /search`. -/
structure SearchResponse where
  status : Nat
  body : SearchBody
deriving DecidableEq, Repr

/-- Requests a search issues: the index query, and one availability lookup per
goroutine (`index` is the goroutine's slot). -/
inductive SearchEffect where
  | solrQuery (query : String)
  | availabilityLookup (index : Nat) (hotelID checkIn checkOut : String)
deriving DecidableEq, Repr

/-- What a `searchHotels` run produces. -/
structure SearchOutcome where
  resp : SearchResponse
  trace : List SearchEffect
deriving DecidableEq, Repr

namespace SearchService

/-- Method `SearchService.checkAvailability`; `get` is the `GET
/availability?hotel_id=..&check_in=..&check_out=..` request of this call, given
by the three values its URL carries. The status code is not looked at. -/
def checkAvailability (get : String → String → String → HttpResult)
    (hotelID checkIn checkOut : String) : Bool :=
  match get hotelID checkIn checkOut with
  | .transportError => false
  | .undecodable => false
  | .decoded result =>
    match result.lookup "available" with
    | some (.bool available) => available
    | _ => false

/-- The body of one goroutine of `searchHotels`: the value written to
`hotels[index]`, and the availability lookup issued on the way, if any. -/
def worker (get : Nat → String → String → String → HttpResult) (checkIn checkOut : String)
    (index : Nat) (solrDoc : SolrDoc) : Hotel × List SearchEffect :=
  let hotel : Hotel :=
    { ID := solrDoc.ID, Name := solrDoc.Name, Description := solrDoc.Description,
      City := solrDoc.City, Address := solrDoc.Address, Amenities := solrDoc.Amenities,
      Images := solrDoc.Images, Thumbnail := solrDoc.Thumbnail,
      AmadeusID := solrDoc.AmadeusID, Available := true }
  if checkIn ≠ "" ∧ checkOut ≠ "" then
    ({ hotel with Available := checkAvailability (get index) solrDoc.ID checkIn checkOut },
      [.availabilityLookup index solrDoc.ID checkIn checkOut])
  else (hotel, [])

/-- The slice `hotels` once `wg.Wait()` returns (slot `index + i` holds what the
goroutine started for the `i`-th document wrote), and the lookups the
goroutines issued, by slot. -/
def fanOut (get : Nat → String → String → String → HttpResult) (checkIn checkOut : String) :
    Nat → List SolrDoc → List Hotel × List SearchEffect
  | _, [] => ([], [])
  | index, solrDoc :: rest =>
    ((worker get checkIn checkOut index solrDoc).1
        :: (fanOut get checkIn checkOut (index + 1) rest).1,
      (worker get checkIn checkOut index solrDoc).2
        ++ (fanOut get checkIn checkOut (index + 1) rest).2)

/-- Handler `SearchService.searchHotels` (`GET /search`). `solr` answers the
index query `q=city:<city>`; `get index` is the availability request made by
the goroutine of slot `index`. -/
def searchHotels (solr : String → SolrReply)
    (get : Nat → String → String → String → HttpResult)
    (city checkIn checkOut : String) : SearchOutcome :=
  if city = "" then ⟨⟨400, .error "City parameter is required"⟩, []⟩
  else
    let query := "city:" ++ city
    match solr query with
    | .getError => ⟨⟨500, .error "Search service unavailable"⟩, [.solrQuery query]⟩
    | .readError => ⟨⟨500, .error "Failed to read search results"⟩, [.solrQuery query]⟩
    | .parseError => ⟨⟨500, .error "Failed to parse search results"⟩, [.solrQuery query]⟩
    | .ok docs =>
      let fan := fanOut get checkIn checkOut 0 docs
      let hotels :=
        if checkIn ≠ "" ∧ checkOut ≠ "" then fan.1.filter (fun hotel => hotel.Available)
        else fan.1
      ⟨⟨200, .result { Hotels := hotels, Total := hotels.length }⟩, .solrQuery query :: fan.2⟩

end SearchService

/-- Reads `YYYY-MM-DD` as the number `YYYYMMDD`, which orders dates as the
calendar does; any other text reads as `0`. -/
def isoDate (s : String) : Date :=
  let d : Char → Nat := fun c => c.toNat - 48
  match s.data with
  | [y1, y2, y3, y4, _, m1, m2, _, d1, d2] =>
    (d y1 * 1000 + d y2 * 100 + d y3 * 10 + d y4) * 10000 + (d m1 * 10 + d m2) * 100 + (d d1 * 10 + d d2)
  | _ => 0

/-! ## Specification vocabulary -/

namespace Spec

/-- The half-open overlap test: `[a, b)` and `[c, d)` overlap iff `a < d` and
`c < b`. -/
def overlaps (a b c d : Date) : Prop := a < d ∧ c < b

instance (a b c d : Date) : Decidable (overlaps a b c d) := by
  unfold overlaps; infer_instance

/-- A stored reservation `r` conflicts with the query `(hotelID, checkIn,
checkOut)`: same hotel, status `confirmed`, overlapping half-open ranges. -/
def conflicts (hotelID : String) (checkIn checkOut : Date) (r : Reservation) : Prop :=
  r.HotelID = hotelID ∧ r.Status = "confirmed" ∧
    overlaps r.CheckIn r.CheckOut checkIn checkOut

instance (hotelID : String) (checkIn checkOut : Date) (r : Reservation) :
    Decidable (conflicts hotelID checkIn checkOut r) := by
  unfold conflicts; infer_instance

/-- Invariant I3: any two distinct rows of one hotel that are both `confirmed`
have non-overlapping half-open ranges. -/
def NoDoubleBooking (rows : List Reservation) : Prop :=
  rows.Pairwise (fun r1 r2 =>
    ¬ (r1.HotelID = r2.HotelID ∧ r1.Status = "confirmed" ∧ r2.Status = "confirmed" ∧
        overlaps r1.CheckIn r1.CheckOut r2.CheckIn r2.CheckOut))

instance (rows : List Reservation) : Decidable (NoDoubleBooking rows) := by
  unfold NoDoubleBooking; infer_instance

/-- An availability lookup fails: transport error, undecodable body, or a body
whose `available` field is missing or not a boolean. -/
def LookupFailed : HttpResult → Prop
  | .transportError => True
  | .undecodable => True
  | .decoded result => ∀ b : Bool, result.lookup "available" ≠ some (.bool b)

/-- The hotel summary of an index document: its nine fields copied, marked
available. -/
def summary (d : SolrDoc) : Hotel :=
  { ID := d.ID, Name := d.Name, Description := d.Description, City := d.City,
    Address := d.Address, Amenities := d.Amenities, Images := d.Images,
    Thumbnail := d.Thumbnail, AmadeusID := d.AmadeusID, Available := true }

/-- The order-preserving filter of the candidates: the summaries of the
candidates whose availability lookup returned true, each once, in candidate
order. The candidates occupy the slots `first`, `first + 1`, ... -/
def kept (get : Nat → String → String → String → HttpResult) (checkIn checkOut : String)
    (first : Nat) (docs : List SolrDoc) : List Hotel :=
  ((docs.enumFrom first).filter
    (fun p => SearchService.checkAvailability (get p.1) p.2.ID checkIn checkOut)).map
    (fun p => summary p.2)

end Spec

/-- States reachable from the empty store with `createReservation` as the only
step, for any configuration, environment, request body and caller. -/
inductive Reachable : State → Prop where
  | init : Reachable State.empty
  | step (cfg : Config) (env : AdmissionEnv) (st : State) (body : Except String Reservation)
      (userID : Int) :
      Reachable st → Reachable (UserService.createReservation cfg env st body userID).state

/-! ## Scenario data -/

namespace Scenario

/-- A store whose only row is a confirmed stay of hotel `A` over
`[2024-06-02, 2024-06-03)`. -/
def innerStay : State :=
  { State.empty with
    reservations := [⟨1, 7, "A", 20240602, 20240603, "confirmed", "YXPARKPR"⟩], nextID := 2 }

/-- A configuration with the external provider enabled. -/
def withProvider : Config := ⟨"client-id", "client-secret"⟩

/-- A configuration without external provider. -/
def noProvider : Config := ⟨"", ""⟩

/-- An environment in which the provider accepts every stay and the store
works. -/
def accepting : AdmissionEnv :=
  { token := some "token", offers := fun _ _ _ _ => some 200, mappingErr := false,
    mappingInsertErr := false, insertErr := none }

/-- A request body for hotel `A` over `[checkIn, checkOut)`. -/
def stayA (checkIn checkOut : Date) : Reservation :=
  ⟨0, 0, "A", checkIn, checkOut, "", ""⟩

/-- The store after two accepted admissions for hotel `A`, over
`[2024-06-01, 2024-06-03)` and `[2024-06-02, 2024-06-04)`. -/
def twoAdmissions : State :=
  (UserService.createReservation withProvider accepting
    (UserService.createReservation withProvider accepting State.empty
      (.ok (stayA 20240601 20240603)) 7).state
    (.ok (stayA 20240602 20240604)) 8).state

end Scenario

/-! ## The two services wired together -/

/-- The availability endpoint as search-service reaches it: one run of the
user-service handler, whose JSON body the client decodes into a map (the body
`null` decodes to the nil map). -/
def availabilityRequest (toDate : String → Date) (env : Env) (st : State)
    (hotelID checkIn checkOut : String) : HttpResult × State :=
  let out := UserService.checkAvailability toDate env st hotelID checkIn checkOut
  (.decoded (out.resp.body.getD []), out.state)

/-- User-service handling the availability lookups of `schedule` one after the
other, in that order: the answer each slot receives. -/
def serve (toDate : String → Date) (env : Env) : State → List SearchEffect → List (Nat × HttpResult)
  | _, [] => []
  | st, .solrQuery _ :: rest => serve toDate env st rest
  | st, .availabilityLookup index hotelID checkIn checkOut :: rest =>
    (index, (availabilityRequest toDate env st hotelID checkIn checkOut).1) ::
      serve toDate env (availabilityRequest toDate env st hotelID checkIn checkOut).2 rest

/-- The availability requests of a search, answered from a table of answers by
slot. -/
def answered (answers : List (Nat × HttpResult)) : Nat → String → String → String → HttpResult :=
  fun index _ _ _ => (answers.lookup index).getD .transportError

namespace Scenario

/-- Index document of hotel `A`, in Paris. -/
def docA : SolrDoc := ⟨"A", "Hotel A", "", "Paris", "", [], [], "", ""⟩

/-- Index document of hotel `B`, in Paris. -/
def docB : SolrDoc := ⟨"B", "Hotel B", "", "Paris", "", [], [], "", ""⟩

/-- An index whose documents for Paris are `A` and `B`, in this order. -/
def parisIndex : String → SolrReply :=
  fun query => if query = "city:Paris" then .ok [docA, docB] else .ok []

/-- The summary of `A` in a search result. -/
def hotelA : Hotel := ⟨"A", "Hotel A", "", "Paris", "", [], [], "", "", true⟩

/-- The summary of `B` in a search result. -/
def hotelB : Hotel := ⟨"B", "Hotel B", "", "Paris", "", [], [], "", "", true⟩

/-- A store with an empty cache whose only row is a confirmed stay of hotel `A`
over `[checkIn, checkOut)`. -/
def bookedA (checkIn checkOut : Date) : State :=
  { State.empty with
    reservations := [⟨1, 7, "A", checkIn, checkOut, "confirmed", "YXPARKPR"⟩], nextID := 2 }

/-- The lookups that the search `city=Paris, check_in=2024-06-01,
check_out=2024-06-03` issues. -/
def parisLookups : List SearchEffect :=
  [.availabilityLookup 0 "A" "2024-06-01" "2024-06-03",
   .availabilityLookup 1 "B" "2024-06-01" "2024-06-03"]

/-- The search `city=Paris, check_in=2024-06-01, check_out=2024-06-03` run
against user-service in state `st`, which handles the lookups in the order of
`schedule`. -/
def parisSearch (env : Env) (st : State) (schedule : List SearchEffect) : SearchOutcome :=
  SearchService.searchHotels parisIndex (answered (serve isoDate env st schedule))
    "Paris" "2024-06-01" "2024-06-03"

end Scenario

namespace Scenario

/-- An availability answer with `available = true`. -/
def yes : HttpResult := .decoded [("available", .bool true)]

/-- The lookup of slot 0 meets a transport error, every other one is answered
`available = true`. -/
def firstFails : Nat → String → String → String → HttpResult :=
  fun index _ _ _ => if index = 0 then .transportError else yes

/-- Every lookup is answered `available = true`. -/
def allYes : Nat → String → String → String → HttpResult :=
  fun _ _ _ _ => yes

end Scenario

namespace Scenario

/-- An environment in which the provider cannot be reached for a token. -/
def noToken : AdmissionEnv := { accepting with token := none }

/-- An environment in which the store refuses the insert. -/
def storeDown : AdmissionEnv := { accepting with insertErr := some "connection refused" }

end Scenario

namespace Scenario

/-- The state after the query `(A, 2024-06-01, 2024-06-03)` was answered at
second 0 from an empty store and an empty cache. -/
def afterQuery : State :=
  (UserService.checkAvailability isoDate ⟨0, false, false⟩ State.empty
    "A" "2024-06-01" "2024-06-03").state

/-- The state after that query and then an accepted admission of hotel `A` over
`[2024-06-01, 2024-06-02)`. -/
def queriedThenBooked : State :=
  (UserService.createReservation withProvider accepting afterQuery
    (.ok (stayA 20240601 20240602)) 7).state

end Scenario

/-! ## hotel-service: event emission -/

namespace HotelService

/-- Go struct `Hotel` of hotel-service. `ID` is the hex text of the object id,
`Amenities` and `Images` are `none` for a nil slice, the two times are given by
their JSON text, and `PricePerNight` (a `float64` no consumer reads) by a whole
number. -/
structure Hotel where
  ID : String
  Name : String
  Description : String
  City : String
  Address : String
  Amenities : Option (List String)
  Images : Option (List String)
  Thumbnail : String
  TotalRooms : Int
  PricePerNight : Int
  AmadeusID : String
  CreatedAt : String
  UpdatedAt : String
deriving DecidableEq, Repr

/-- JSON encoding of a `[]string`: `null` for a nil slice. -/
def strings : Option (List String) → JValue
  | none => .null
  | some l => .array (l.map .string)

/-- The fields of the JSON encoding of a `Hotel`, by its `json` tags. -/
def Hotel.fields (h : Hotel) : JObject :=
  [("id", .string h.ID), ("name", .string h.Name),
    ("description", .string h.Description), ("city", .string h.City),
    ("address", .string h.Address), ("amenities", strings h.Amenities),
    ("images", strings h.Images), ("thumbnail", .string h.Thumbnail),
    ("totalRooms", .number h.TotalRooms), ("pricePerNight", .number h.PricePerNight),
    ("amadeus_id", .string h.AmadeusID), ("created_at", .string h.CreatedAt),
    ("updated_at", .string h.UpdatedAt)]

/-- JSON encoding of a `Hotel`. -/
def Hotel.toJSON (h : Hotel) : JValue := .object h.fields

/-- The value `Hotel{ID: objectID}` that `deleteHotel` publishes: every other
field has its zero value. -/
def deletedHotel (id : String) : Hotel :=
  { ID := id, Name := "", Description := "", City := "", Address := "", Amenities := none,
    Images := none, Thumbnail := "", TotalRooms := 0, PricePerNight := 0, AmadeusID := "",
    CreatedAt := "0001-01-01T00:00:00Z", UpdatedAt := "0001-01-01T00:00:00Z" }

/-- The message `map[string]interface{}{"action": action, "hotel": hotel}` as
`json.Marshal` encodes it. It carries no revision or sequence number. -/
def message (action : String) (hotel : Hotel) : JValue :=
  .object [("action", .string action), ("hotel", hotel.toJSON)]

/-- Method `HotelService.publishHotelUpdate`: the message is put on the queue
`hotel_updates`, unless `Publish` returns an error, which is logged only. -/
def publishHotelUpdate (publishErr : Bool) (queue : List JValue) (action : String)
    (hotel : Hotel) : List JValue :=
  if publishErr then queue else queue ++ [message action hotel]

end HotelService

/-! ## search-service: the Index Synchronizer -/

/-- The search index as a map from document id to stored document. -/
abbrev Index := String → Option JObject

/-- What the environment does during one iteration of the consumption loop. -/
structure IndexEnv where
  /-- the update request to the index backend fails -/
  postErr : Bool
deriving DecidableEq, Repr

/-- How one iteration of the consumption loop ends: the loop goes on to the
next message with the index as given, or the goroutine aborts on a failed type
assertion. -/
inductive LoopStep where
  | next (index : Index)
  | aborted

/-- The document stored under `id` once the loop has come this far; `none` when
the loop aborted. -/
def LoopStep.document (s : LoopStep) (id : String) : Option (Option JObject) :=
  match s with
  | .next index => some (index id)
  | .aborted => none

namespace Solr

/-- The index backend handling `POST /solr/hotels/update?commit=true` with a
document array `[doc]`: the document replaces whatever is stored under its
`id`. Nothing changes when the request fails or the document has no string
`id`. -/
def add (postErr : Bool) (index : Index) (doc : JObject) : Index :=
  if postErr then index
  else
    match doc.lookup "id" with
    | some (.string id) => fun key => if key = id then some doc else index key
    | _ => index

/-- The index backend handling `POST /solr/hotels/update?commit=true` with the
directive `delete` by `id`: the document stored under `id` is removed. Nothing
changes when the request fails. -/
def deleteById (postErr : Bool) (index : Index) (id : String) : Index :=
  if postErr then index
  else fun key => if key = id then none else index key

end Solr

namespace SearchService

/-- Method `SearchService.indexHotel`: the nine fields are read from
`hotelData` (a missing key reads as nil, encoded `null`) and sent as one
document, its keys listed here as the source lists them. -/
def indexHotel (env : IndexEnv) (index : Index) (hotelData : JObject) : Index :=
  let field : String → JValue := fun key => (hotelData.lookup key).getD .null
  let doc : JObject :=
    [("id", field "id"), ("name", field "name"), ("description", field "description"),
     ("city", field "city"), ("address", field "address"), ("amenities", field "amenities"),
     ("images", field "images"), ("thumbnail", field "thumbnail"),
     ("amadeus_id", field "amadeus_id")]
  Solr.add env.postErr index doc

/-- Method `SearchService.deleteHotelFromIndex`. -/
def deleteHotelFromIndex (env : IndexEnv) (index : Index) (hotelID : String) : Index :=
  Solr.deleteById env.postErr index hotelID

/-- The call `json.Unmarshal(msg.Body, &update)` into a `map[string]interface{}`,
on the decoded form of the body (`none` when the bytes are not valid JSON): an
object gives its map, `null` gives the nil map, anything else is an error. -/
def unmarshalMap : Option JValue → Option JObject
  | some (.object fields) => some fields
  | some .null => some []
  | _ => none

/-- One iteration of the loop `for msg := range msgs` of
`listenForHotelUpdates`. The type assertions `update["action"].(string)`,
`update["hotel"].(map[string]interface{})` and `hotelData["id"].(string)` are of
the single-value form, which panics when the value has another type or is
missing. -/
def handleMessage (env : IndexEnv) (index : Index) (body : Option JValue) : LoopStep :=
  match unmarshalMap body with
  | none => .next index
  | some update =>
    match update.lookup "action" with
    | some (.string action) =>
      match update.lookup "hotel" with
      | some (.object hotelData) =>
        if action = "created" ∨ action = "updated" then
          .next (indexHotel env index hotelData)
        else if action = "deleted" then
          match hotelData.lookup "id" with
          | some (.string hotelID) => .next (deleteHotelFromIndex env index hotelID)
          | _ => .aborted
        else .next index
      | _ => .aborted
    | _ => .aborted

/-- Method `SearchService.listenForHotelUpdates`, from the loop on: the
deliveries are handled one after the other until the channel is drained or an
iteration aborts. -/
def listenForHotelUpdates (index : Index) : List (IndexEnv × Option JValue) → LoopStep
  | [] => .next index
  | (env, body) :: rest =>
    match handleMessage env index body with
    | .next index' => listenForHotelUpdates index' rest
    | .aborted => .aborted

end SearchService

namespace Spec

/-- A well-formed event: a JSON object whose `action` is the string `action`,
one of `created`, `updated`, `deleted`, and whose `hotel` is the object
`hotelData` with the string `id` under `id`. -/
def WellFormed (body : Option JValue) (action id : String) (hotelData : JObject) : Prop :=
  ∃ fields, body = some (.object fields) ∧
    fields.lookup "action" = some (.string action) ∧
    fields.lookup "hotel" = some (.object hotelData) ∧
    hotelData.lookup "id" = some (.string id) ∧
    (action = "created" ∨ action = "updated" ∨ action = "deleted")

/-- The nine fields of an index document. -/
def indexFields : List String :=
  ["id", "name", "description", "city", "address", "amenities", "images", "thumbnail",
   "amadeus_id"]

end Spec

namespace Scenario

/-- A hotel of the catalog. -/
def hotelH : HotelService.Hotel :=
  { ID := "64b7f0c2a1d3e4f5a6b7c8d9", Name := "Hotel H", Description := "", City := "Paris",
    Address := "", Amenities := some ["WiFi"], Images := none, Thumbnail := "",
    TotalRooms := 10, PricePerNight := 100, AmadeusID := "",
    CreatedAt := "2024-05-01T00:00:00Z", UpdatedAt := "2024-05-02T00:00:00Z" }

/-- The `updated` event of `hotelH`, as delivered. -/
def updatedH : Option JValue := some (HotelService.message "updated" hotelH)

/-- The `deleted` event of `hotelH`, emitted after `updatedH`, as delivered. -/
def deletedH : Option JValue :=
  some (HotelService.message "deleted" (HotelService.deletedHotel "64b7f0c2a1d3e4f5a6b7c8d9"))

/-- The empty index. -/
def emptyIndex : Index := fun _ => none

/-- An environment in which index writes succeed. -/
def writes : IndexEnv := ⟨false⟩

/-- The index document of `hotelH`. -/
def docH : JObject :=
  [("id", .string "64b7f0c2a1d3e4f5a6b7c8d9"), ("name", .string "Hotel H"),
   ("description", .string ""), ("city", .string "Paris"), ("address", .string ""),
   ("amenities", .array [.string "WiFi"]), ("images", .null), ("thumbnail", .string ""),
   ("amadeus_id", .string "")]

end Scenario

/-! ## Auxiliary lemmas -/

theorem validateWithAmadeus_reservations (env : AdmissionEnv) (st : State) (hotelID : String)
    (checkIn checkOut : Date) :
    (UserService.validateWithAmadeus env st hotelID checkIn checkOut).state.reservations
      = st.reservations := by
  unfold UserService.validateWithAmadeus
  cases env.token with
  | none => rfl
  | some token =>
    dsimp only
    repeat' split
    all_goals rfl

theorem persist_rows (env : AdmissionEnv) (st : State) (trace : List Effect) (r : Reservation) :
    (UserService.persist env st trace r).state.reservations =
      match env.insertErr with
      | some _ => st.reservations
      | none => st.reservations ++ [{ r with ID := st.nextID }] := by
  unfold UserService.persist
  cases env.insertErr <;> rfl

/-- What `createReservation` does to the `reservations` table: nothing, or one
row appended that carries the request's hotel and dates, `pending` without
provider and `confirmed` with it. -/
theorem createReservation_rows (cfg : Config) (env : AdmissionEnv) (st : State)
    (body : Except String Reservation) (userID : Int) :
    (UserService.createReservation cfg env st body userID).state.reservations = st.reservations ∨
    ∃ req row, body = .ok req ∧
      (UserService.createReservation cfg env st body userID).state.reservations
        = st.reservations ++ [row] ∧
      row.HotelID = req.HotelID ∧ row.CheckIn = req.CheckIn ∧ row.CheckOut = req.CheckOut ∧
      (((cfg.amadeusClientID = "" ∨ cfg.amadeusSecret = "") ∧ row.Status = "pending") ∨
       ((cfg.amadeusClientID ≠ "" ∧ cfg.amadeusSecret ≠ "") ∧ row.Status = "confirmed")) := by
  cases body with
  | error msg => left; rfl
  | ok req =>
    unfold UserService.createReservation
    dsimp only
    by_cases hcfg : cfg.amadeusClientID ≠ "" ∧ cfg.amadeusSecret ≠ ""
    · rw [if_pos hcfg]
      split
      · left; exact validateWithAmadeus_reservations _ _ _ _ _
      · rw [persist_rows, validateWithAmadeus_reservations]
        cases env.insertErr with
        | some msg => left; rfl
        | none =>
          right
          exact ⟨req, _, rfl, rfl, rfl, rfl, rfl, Or.inr ⟨hcfg, rfl⟩⟩
    · rw [if_neg hcfg, persist_rows]
      have hno : cfg.amadeusClientID = "" ∨ cfg.amadeusSecret = "" := by
        by_contra h; push_neg at h; exact hcfg h
      cases env.insertErr with
      | some msg => left; rfl
      | none =>
        right
        exact ⟨req, _, rfl, rfl, rfl, rfl, rfl, Or.inl ⟨hno, rfl⟩⟩

/-! ## The Availability Oracle and the overlap test -/

/-- C1 (fails on the code): with an empty cache and a store whose only row is
a confirmed stay of hotel `A` over `[2024-06-02, 2024-06-03)`, the query
`(A, 2024-06-01, 2024-06-04)` satisfies the claim's premises, the stored row
overlaps the queried range by the half-open test, and `checkAvailability`
still answers 200 with `available = true`: the `WHERE` clause matches no row
that lies strictly inside the queried range. -/
theorem checkAvailability_misses_inner_stay :
    isoDate "2024-06-01" < isoDate "2024-06-04" ∧
    (∀ r ∈ Scenario.innerStay.reservations, r.CheckIn < r.CheckOut) ∧
    Memcached.get false 0 Scenario.innerStay.cache
      (UserService.cacheKey "A" "2024-06-01" "2024-06-04") = none ∧
    (∃ r ∈ Scenario.innerStay.reservations,
      Spec.conflicts "A" (isoDate "2024-06-01") (isoDate "2024-06-04") r) ∧
    (UserService.checkAvailability isoDate ⟨0, false, false⟩ Scenario.innerStay
      "A" "2024-06-01" "2024-06-04").resp
      = ⟨200, some (UserService.resultMap true "A" "2024-06-01" "2024-06-04")⟩ := by
  decide

/-! ## Admission and the no-double-booking invariant -/

/-- C2 (as stated, fails): two admissions the provider accepts for hotel `A`,
over `[2024-06-01, 2024-06-03)` and `[2024-06-02, 2024-06-04)`, lead from the
empty store to a state with two overlapping confirmed rows, so not every
reachable state satisfies I3. -/
theorem double_booking_reachable :
    ¬ ∀ st : State, Reachable st → Spec.NoDoubleBooking st.reservations := by
  intro h
  have hreach : Reachable Scenario.twoAdmissions :=
    Reachable.step _ _ _ _ _ (Reachable.step _ _ _ _ _ Reachable.init)
  exact absurd (h _ hreach) (by decide)

/-- C2 (amended): `createReservation` preserves I3 whenever the request, if it
binds, comes without provider configured (the row is stored `pending`) or for a
range that overlaps no confirmed row already stored for its hotel. -/
theorem createReservation_preserves_noDoubleBooking (cfg : Config) (env : AdmissionEnv)
    (st : State) (body : Except String Reservation) (userID : Int)
    (hinv : Spec.NoDoubleBooking st.reservations)
    (hfree : ∀ req, body = .ok req →
      (cfg.amadeusClientID = "" ∨ cfg.amadeusSecret = "") ∨
      ∀ r ∈ st.reservations, r.HotelID = req.HotelID → r.Status = "confirmed" →
        ¬ Spec.overlaps r.CheckIn r.CheckOut req.CheckIn req.CheckOut) :
    Spec.NoDoubleBooking (UserService.createReservation cfg env st body userID).state.reservations := by
  rcases createReservation_rows cfg env st body userID with h | ⟨req, row, hbody, hrows, hH, hI, hO, hstat⟩
  · rw [h]; exact hinv
  · rw [hrows]
    unfold Spec.NoDoubleBooking at *
    rw [List.pairwise_append]
    refine ⟨hinv, List.pairwise_singleton _ _, ?_⟩
    intro r hr row' hrow'
    rw [List.mem_singleton] at hrow'
    subst hrow'
    rintro ⟨hid, hconf, hconf', hov⟩
    rcases hstat with ⟨_, hp⟩ | ⟨hc, _⟩
    · rw [hp] at hconf'; exact absurd hconf' (by decide)
    · rcases hfree req hbody with hno | hfree'
      · rcases hno with h1 | h2
        · exact hc.1 h1
        · exact hc.2 h2
      · refine hfree' r hr (hid.trans hH) hconf ?_
        rw [← hI, ← hO]; exact hov

/-- C2 (amended), at a concrete input: after an accepted stay of hotel `A` over
`[2024-06-01, 2024-06-03)`, an accepted stay over `[2024-06-03, 2024-06-05)`
keeps I3. -/
theorem createReservation_preserves_noDoubleBooking_witness :
    Spec.NoDoubleBooking (Scenario.bookedA 20240601 20240603).reservations ∧
    (∀ r ∈ (Scenario.bookedA 20240601 20240603).reservations, r.HotelID = "A" →
      r.Status = "confirmed" → ¬ Spec.overlaps r.CheckIn r.CheckOut 20240603 20240605) ∧
    Spec.NoDoubleBooking (UserService.createReservation Scenario.withProvider Scenario.accepting
      (Scenario.bookedA 20240601 20240603) (.ok (Scenario.stayA 20240603 20240605)) 8).state.reservations :=
  ⟨by decide, by decide,
    createReservation_preserves_noDoubleBooking Scenario.withProvider Scenario.accepting
      (Scenario.bookedA 20240601 20240603) (.ok (Scenario.stayA 20240603 20240605)) 8 (by decide)
      (by
        intro req hreq
        cases hreq
        exact Or.inr (by decide))⟩

/-! ## The search scenario -/

/-- C3: on an empty cache, with index candidates `A` and `B` for Paris and the
query `check_in=2024-06-01, check_out=2024-06-03`, the search issues the index
query and one lookup per candidate and, whichever of the two lookups
user-service handles first, (i) a single confirmed stay of `A` over
`[2024-06-01, 2024-06-02)` gives the result `[B]` with total 1, and (ii) a
single confirmed stay of `A` over `[2024-05-01, 2024-05-03)` gives `[A, B]`
with total 2. -/
theorem paris_search_scenario (now : Nat) (cacheErr : Bool) :
    (Scenario.parisSearch ⟨now, cacheErr, false⟩ (Scenario.bookedA 20240601 20240602)
        Scenario.parisLookups
      = ⟨⟨200, .result ⟨[Scenario.hotelB], 1⟩⟩,
          .solrQuery "city:Paris" :: Scenario.parisLookups⟩ ∧
     Scenario.parisSearch ⟨now, cacheErr, false⟩ (Scenario.bookedA 20240601 20240602)
        Scenario.parisLookups.reverse
      = ⟨⟨200, .result ⟨[Scenario.hotelB], 1⟩⟩,
          .solrQuery "city:Paris" :: Scenario.parisLookups⟩) ∧
    (Scenario.parisSearch ⟨now, cacheErr, false⟩ (Scenario.bookedA 20240501 20240503)
        Scenario.parisLookups
      = ⟨⟨200, .result ⟨[Scenario.hotelA, Scenario.hotelB], 2⟩⟩,
          .solrQuery "city:Paris" :: Scenario.parisLookups⟩ ∧
     Scenario.parisSearch ⟨now, cacheErr, false⟩ (Scenario.bookedA 20240501 20240503)
        Scenario.parisLookups.reverse
      = ⟨⟨200, .result ⟨[Scenario.hotelA, Scenario.hotelB], 2⟩⟩,
          .solrQuery "city:Paris" :: Scenario.parisLookups⟩) := by
  cases cacheErr <;> exact ⟨⟨rfl, rfl⟩, ⟨rfl, rfl⟩⟩

/-! ## The fan-out of `searchHotels` -/

theorem fanOut_filter (get : Nat → String → String → String → HttpResult)
    (checkIn checkOut : String) (hin : checkIn ≠ "") (hout : checkOut ≠ "")
    (first : Nat) (docs : List SolrDoc) :
    (SearchService.fanOut get checkIn checkOut first docs).1.filter
        (fun hotel => hotel.Available)
      = Spec.kept get checkIn checkOut first docs := by
  induction docs generalizing first with
  | nil => rfl
  | cons d rest ih =>
    have ih' := ih (first + 1)
    unfold Spec.kept at ih' ⊢
    simp only [SearchService.fanOut, List.enumFrom_cons, List.filter_cons]
    have hw : (SearchService.worker get checkIn checkOut first d).1.Available
        = SearchService.checkAvailability (get first) d.ID checkIn checkOut := by
      simp [SearchService.worker, hin, hout]
    rw [hw]
    cases hav : SearchService.checkAvailability (get first) d.ID checkIn checkOut
    · simpa using ih'
    · simp only [if_true, List.map_cons, ih']
      congr 1
      simp [SearchService.worker, hin, hout, hav, Spec.summary]

theorem kept_append (get : Nat → String → String → String → HttpResult)
    (checkIn checkOut : String) (first : Nat) (pre post : List SolrDoc) :
    Spec.kept get checkIn checkOut first (pre ++ post)
      = Spec.kept get checkIn checkOut first pre
        ++ Spec.kept get checkIn checkOut (first + pre.length) post := by
  unfold Spec.kept
  rw [List.enumFrom_append, List.filter_append, List.map_append]

theorem kept_congr (get get' : Nat → String → String → String → HttpResult)
    (checkIn checkOut : String) (first : Nat) (docs : List SolrDoc)
    (h : ∀ j, first ≤ j → j < first + docs.length → get' j = get j) :
    Spec.kept get' checkIn checkOut first docs = Spec.kept get checkIn checkOut first docs := by
  induction docs generalizing first with
  | nil => rfl
  | cons d rest ih =>
    have ih' := ih (first + 1) (fun j h1 h2 => h j (by omega) (by simp only [List.length_cons]; omega))
    unfold Spec.kept at ih' ⊢
    simp only [List.enumFrom_cons, List.filter_cons, h first le_rfl (by simp)]
    split
    · simp only [List.map_cons, ih']
    · exact ih'

theorem checkAvailability_of_failed (get : String → String → String → HttpResult)
    (hotelID checkIn checkOut : String)
    (hfail : Spec.LookupFailed (get hotelID checkIn checkOut)) :
    SearchService.checkAvailability get hotelID checkIn checkOut = false := by
  unfold SearchService.checkAvailability
  cases hres : get hotelID checkIn checkOut with
  | transportError => rfl
  | undecodable => rfl
  | decoded result =>
    rw [hres] at hfail
    simp only [Spec.LookupFailed] at hfail
    dsimp only
    split
    · next available heq => exact absurd heq (hfail available)
    · rfl

theorem searchHotels_with_dates (solr : String → SolrReply)
    (get : Nat → String → String → String → HttpResult) (city checkIn checkOut : String)
    (docs : List SolrDoc) (hcity : city ≠ "") (hin : checkIn ≠ "") (hout : checkOut ≠ "")
    (hsolr : solr ("city:" ++ city) = .ok docs) :
    (SearchService.searchHotels solr get city checkIn checkOut).resp
      = ⟨200, .result ⟨Spec.kept get checkIn checkOut 0 docs,
          (Spec.kept get checkIn checkOut 0 docs).length⟩⟩ := by
  unfold SearchService.searchHotels
  rw [if_neg hcity]
  simp only [hsolr]
  rw [if_pos ⟨hin, hout⟩, fanOut_filter get checkIn checkOut hin hout]

/-- C5: when both dates are supplied and the index returns `docs`,
`searchHotels` answers 200 with the order-preserving filter of the candidates
(the summaries of exactly those whose lookup returned true, each once, in
candidate order, hence a sublist of the candidates' summaries) and with `total`
equal to the length of that list. -/
theorem searchHotels_order_preserving_filter (solr : String → SolrReply)
    (get : Nat → String → String → String → HttpResult) (city checkIn checkOut : String)
    (docs : List SolrDoc) (hcity : city ≠ "") (hin : checkIn ≠ "") (hout : checkOut ≠ "")
    (hsolr : solr ("city:" ++ city) = .ok docs) :
    (SearchService.searchHotels solr get city checkIn checkOut).resp
      = ⟨200, .result ⟨Spec.kept get checkIn checkOut 0 docs,
          (Spec.kept get checkIn checkOut 0 docs).length⟩⟩ ∧
    List.Sublist (Spec.kept get checkIn checkOut 0 docs) (docs.map Spec.summary) := by
  refine ⟨searchHotels_with_dates solr get city checkIn checkOut docs hcity hin hout hsolr, ?_⟩
  unfold Spec.kept
  have h : docs.map Spec.summary = (docs.enumFrom 0).map (fun p => Spec.summary p.2) := by
    conv_lhs => rw [← List.enumFrom_map_snd 0 docs]
    rw [List.map_map]; rfl
  rw [h]
  exact (List.filter_sublist _).map _

/-- C5 at a concrete input: with candidates `A`, `B` and the lookup of `A`
failing, the result is `[B]` with total 1. -/
theorem searchHotels_order_preserving_filter_witness :
    (SearchService.searchHotels Scenario.parisIndex Scenario.firstFails
        "Paris" "2024-06-01" "2024-06-03").resp
      = ⟨200, .result ⟨[Scenario.hotelB], 1⟩⟩ :=
  (searchHotels_order_preserving_filter Scenario.parisIndex Scenario.firstFails
    "Paris" "2024-06-01" "2024-06-03" [Scenario.docA, Scenario.docB]
    (by decide) (by decide) (by decide) (by decide)).1

/-- C4: with both dates supplied and candidates `pre ++ d :: post`, if the
lookup of `d` fails then `checkAvailability` returns false for it and
`searchHotels` answers 200 with the kept candidates of `pre` followed by the
kept candidates of `post`: `d` is omitted. Had the lookup of `d` not failed
(any `get'` that differs from `get` at the slot of `d` only), the result
would hold the same kept candidates of `pre` and `post`, around `d` if its
lookup returned true. -/
theorem searchHotels_fail_closed (solr : String → SolrReply)
    (get get' : Nat → String → String → String → HttpResult) (city checkIn checkOut : String)
    (pre : List SolrDoc) (d : SolrDoc) (post : List SolrDoc)
    (hcity : city ≠ "") (hin : checkIn ≠ "") (hout : checkOut ≠ "")
    (hsolr : solr ("city:" ++ city) = .ok (pre ++ d :: post))
    (hfail : Spec.LookupFailed (get pre.length d.ID checkIn checkOut))
    (hsame : ∀ j, j ≠ pre.length → get' j = get j) :
    SearchService.checkAvailability (get pre.length) d.ID checkIn checkOut = false ∧
    (SearchService.searchHotels solr get city checkIn checkOut).resp
      = ⟨200, .result
          ⟨Spec.kept get checkIn checkOut 0 pre
            ++ Spec.kept get checkIn checkOut (pre.length + 1) post,
           (Spec.kept get checkIn checkOut 0 pre
            ++ Spec.kept get checkIn checkOut (pre.length + 1) post).length⟩⟩ ∧
    (SearchService.searchHotels solr get' city checkIn checkOut).resp
      = ⟨200, .result
          ⟨Spec.kept get checkIn checkOut 0 pre
            ++ (if SearchService.checkAvailability (get' pre.length) d.ID checkIn checkOut
                then [Spec.summary d] else [])
            ++ Spec.kept get checkIn checkOut (pre.length + 1) post,
           (Spec.kept get checkIn checkOut 0 pre
            ++ (if SearchService.checkAvailability (get' pre.length) d.ID checkIn checkOut
                then [Spec.summary d] else [])
            ++ Spec.kept get checkIn checkOut (pre.length + 1) post).length⟩⟩ := by
  have hfalse := checkAvailability_of_failed (get pre.length) d.ID checkIn checkOut hfail
  have hsplit : ∀ g : Nat → String → String → String → HttpResult,
      Spec.kept g checkIn checkOut 0 (pre ++ d :: post)
        = Spec.kept g checkIn checkOut 0 pre
          ++ (if SearchService.checkAvailability (g pre.length) d.ID checkIn checkOut
              then [Spec.summary d] else [])
          ++ Spec.kept g checkIn checkOut (pre.length + 1) post := by
    intro g
    rw [kept_append, Nat.zero_add, List.append_assoc]
    congr 1
    unfold Spec.kept
    simp only [List.enumFrom_cons, List.filter_cons]
    split <;> simp
  refine ⟨hfalse, ?_, ?_⟩
  · rw [searchHotels_with_dates solr get city checkIn checkOut _ hcity hin hout hsolr,
      hsplit get, hfalse]
    simp
  · rw [searchHotels_with_dates solr get' city checkIn checkOut _ hcity hin hout hsolr,
      hsplit get',
      kept_congr get get' checkIn checkOut 0 pre (fun j _ h2 => hsame j (by omega)),
      kept_congr get get' checkIn checkOut (pre.length + 1) post
        (fun j h1 _ => hsame j (by omega))]

/-- C4 at a concrete input: candidates `A`, `B`, the lookup of `A` meets a
transport error and that of `B` answers true. -/
theorem searchHotels_fail_closed_witness :
    Spec.LookupFailed (Scenario.firstFails 0 "A" "2024-06-01" "2024-06-03") ∧
    (∀ j, j ≠ 0 → Scenario.allYes j = Scenario.firstFails j) ∧
    SearchService.checkAvailability (Scenario.firstFails 0) "A" "2024-06-01" "2024-06-03" = false ∧
    (SearchService.searchHotels Scenario.parisIndex Scenario.firstFails
        "Paris" "2024-06-01" "2024-06-03").resp
      = ⟨200, .result ⟨[Scenario.hotelB], 1⟩⟩ ∧
    (SearchService.searchHotels Scenario.parisIndex Scenario.allYes
        "Paris" "2024-06-01" "2024-06-03").resp
      = ⟨200, .result ⟨[Scenario.hotelA, Scenario.hotelB], 2⟩⟩ :=
  have hsame : ∀ j, j ≠ 0 → Scenario.allYes j = Scenario.firstFails j := by
    intro j hj
    funext a b c
    simp [Scenario.allYes, Scenario.firstFails, hj]
  ⟨trivial, hsame,
    searchHotels_fail_closed Scenario.parisIndex Scenario.firstFails Scenario.allYes
      "Paris" "2024-06-01" "2024-06-03" [] Scenario.docA [Scenario.docB]
      (by decide) (by decide) (by decide) (by decide) trivial hsame⟩

/-- C6: for a non-empty city and no date range (`check_in` or `check_out`
empty), `searchHotels` issues the index query and no availability lookup, and
answers 200 with one hotel per index candidate, in index order, each with the
candidate's nine fields and `available = true`; `total` is the number of
candidates. -/
theorem searchHotels_without_dates (solr : String → SolrReply)
    (get : Nat → String → String → String → HttpResult) (city checkIn checkOut : String)
    (docs : List SolrDoc) (hcity : city ≠ "") (hnodates : checkIn = "" ∨ checkOut = "")
    (hsolr : solr ("city:" ++ city) = .ok docs) :
    ∃ hotels : List Hotel,
      SearchService.searchHotels solr get city checkIn checkOut
        = ⟨⟨200, .result ⟨hotels, docs.length⟩⟩, [.solrQuery ("city:" ++ city)]⟩ ∧
      List.Forall₂ (fun (h : Hotel) (d : SolrDoc) =>
        h.ID = d.ID ∧ h.Name = d.Name ∧ h.Description = d.Description ∧ h.City = d.City ∧
        h.Address = d.Address ∧ h.Amenities = d.Amenities ∧ h.Images = d.Images ∧
        h.Thumbnail = d.Thumbnail ∧ h.AmadeusID = d.AmadeusID ∧ h.Available = true)
        hotels docs := by
  have hno : ¬ (checkIn ≠ "" ∧ checkOut ≠ "") := by
    rintro ⟨h1, h2⟩
    rcases hnodates with h | h
    · exact h1 h
    · exact h2 h
  have hfan : ∀ (first : Nat) (l : List SolrDoc),
      SearchService.fanOut get checkIn checkOut first l = (l.map Spec.summary, []) := by
    intro first l
    induction l generalizing first with
    | nil => rfl
    | cons d rest ih =>
      simp only [SearchService.fanOut, List.map_cons, ih, SearchService.worker, if_neg hno,
        List.append_nil]
      rfl
  refine ⟨docs.map Spec.summary, ?_, ?_⟩
  · unfold SearchService.searchHotels
    rw [if_neg hcity]
    simp only [hsolr]
    rw [if_neg hno, hfan, List.length_map]
  · rw [List.forall₂_map_left_iff]
    exact List.forall₂_same.mpr (fun d _ => by simp [Spec.summary])

/-- C6 at a concrete input: the search `city=Paris` without dates returns `A`
and `B` and issues the index query only, even when every availability lookup
would fail. -/
theorem searchHotels_without_dates_witness :
    ∃ hotels : List Hotel,
      SearchService.searchHotels Scenario.parisIndex (fun _ _ _ _ => .transportError) "Paris" "" ""
        = ⟨⟨200, .result ⟨hotels, 2⟩⟩, [.solrQuery "city:Paris"]⟩ ∧
      List.Forall₂ (fun (h : Hotel) (d : SolrDoc) =>
        h.ID = d.ID ∧ h.Name = d.Name ∧ h.Description = d.Description ∧ h.City = d.City ∧
        h.Address = d.Address ∧ h.Amenities = d.Amenities ∧ h.Images = d.Images ∧
        h.Thumbnail = d.Thumbnail ∧ h.AmadeusID = d.AmadeusID ∧ h.Available = true)
        hotels [Scenario.docA, Scenario.docB] :=
  searchHotels_without_dates Scenario.parisIndex (fun _ _ _ _ => .transportError) "Paris" "" ""
    [Scenario.docA, Scenario.docB] (by decide) (Or.inl rfl) (by decide)

/-! ## Admission outcomes -/

theorem validateWithAmadeus_nextID (env : AdmissionEnv) (st : State) (hotelID : String)
    (checkIn checkOut : Date) :
    (UserService.validateWithAmadeus env st hotelID checkIn checkOut).state.nextID
      = st.nextID := by
  unfold UserService.validateWithAmadeus
  cases env.token with
  | none => rfl
  | some token =>
    dsimp only
    repeat' split
    all_goals rfl

theorem validateWithAmadeus_cache (env : AdmissionEnv) (st : State) (hotelID : String)
    (checkIn checkOut : Date) :
    (UserService.validateWithAmadeus env st hotelID checkIn checkOut).state.cache
      = st.cache := by
  unfold UserService.validateWithAmadeus
  cases env.token with
  | none => rfl
  | some token =>
    dsimp only
    repeat' split
    all_goals rfl

theorem validateWithAmadeus_true (env : AdmissionEnv) (st : State) (hotelID : String)
    (checkIn checkOut : Date)
    (h : (UserService.validateWithAmadeus env st hotelID checkIn checkOut).resp.1 = true) :
    ∃ token, env.token = some token ∧
      env.offers (UserService.validateWithAmadeus env st hotelID checkIn checkOut).resp.2
        checkIn checkOut token = some 200 := by
  unfold UserService.validateWithAmadeus at h ⊢
  cases htok : env.token with
  | none => rw [htok] at h; simp at h
  | some token =>
    rw [htok] at h
    refine ⟨token, rfl, ?_⟩
    dsimp only at h ⊢
    split at h
    · simp at h
    · next code hcode =>
      split at h
      · next h200 =>
        subst h200
        simp only [↓reduceIte]
        exact hcode
      · simp at h

theorem persist_ok (env : AdmissionEnv) (st : State) (trace : List Effect) (r : Reservation)
    (h : env.insertErr = none) :
    (UserService.persist env st trace r).resp = ⟨201, .reservation { r with ID := st.nextID }⟩ ∧
    (UserService.persist env st trace r).state.reservations
      = st.reservations ++ [{ r with ID := st.nextID }] := by
  unfold UserService.persist
  rw [h]
  exact ⟨rfl, rfl⟩

theorem persist_err (env : AdmissionEnv) (st : State) (trace : List Effect) (r : Reservation)
    (msg : String) (h : env.insertErr = some msg) :
    (UserService.persist env st trace r).resp = ⟨500, .error msg⟩ ∧
    (UserService.persist env st trace r).state = st := by
  unfold UserService.persist
  rw [h]
  exact ⟨rfl, rfl⟩

theorem createReservation_noProvider (cfg : Config) (env : AdmissionEnv) (st : State)
    (bound : Reservation) (userID : Int)
    (hno : cfg.amadeusClientID = "" ∨ cfg.amadeusSecret = "") :
    UserService.createReservation cfg env st (.ok bound) userID
      = UserService.persist env st [] { bound with UserID := userID, Status := "pending" } := by
  have hcfg : ¬ (cfg.amadeusClientID ≠ "" ∧ cfg.amadeusSecret ≠ "") := by
    rintro ⟨h1, h2⟩
    rcases hno with h | h
    · exact h1 h
    · exact h2 h
  simp only [UserService.createReservation, if_neg hcfg]

theorem createReservation_rejected (cfg : Config) (env : AdmissionEnv) (st : State)
    (bound : Reservation) (userID : Int)
    (hcfg : cfg.amadeusClientID ≠ "" ∧ cfg.amadeusSecret ≠ "")
    (hv : (UserService.validateWithAmadeus env st bound.HotelID bound.CheckIn
      bound.CheckOut).resp.1 = false) :
    UserService.createReservation cfg env st (.ok bound) userID
      = ⟨⟨400, .error "Reservation not available"⟩,
          (UserService.validateWithAmadeus env st bound.HotelID bound.CheckIn bound.CheckOut).state,
          (UserService.validateWithAmadeus env st bound.HotelID bound.CheckIn bound.CheckOut).trace⟩ := by
  simp only [UserService.createReservation, if_pos hcfg, if_pos hv]

theorem createReservation_accepted (cfg : Config) (env : AdmissionEnv) (st : State)
    (bound : Reservation) (userID : Int)
    (hcfg : cfg.amadeusClientID ≠ "" ∧ cfg.amadeusSecret ≠ "")
    (hv : (UserService.validateWithAmadeus env st bound.HotelID bound.CheckIn
      bound.CheckOut).resp.1 = true) :
    UserService.createReservation cfg env st (.ok bound) userID
      = UserService.persist env
          (UserService.validateWithAmadeus env st bound.HotelID bound.CheckIn bound.CheckOut).state
          (UserService.validateWithAmadeus env st bound.HotelID bound.CheckIn bound.CheckOut).trace
          { bound with
            UserID := userID,
            AmadeusID := (UserService.validateWithAmadeus env st bound.HotelID bound.CheckIn
              bound.CheckOut).resp.2,
            Status := "confirmed" } := by
  have hv' : ¬ (UserService.validateWithAmadeus env st bound.HotelID bound.CheckIn
      bound.CheckOut).resp.1 = false := by rw [hv]; decide
  simp only [UserService.createReservation, if_pos hcfg, if_neg hv']

/-- C7: admission outcome of `createReservation` for a request that binds.
(i) Without provider and with a working store, exactly one row is appended,
with status `pending`, and returned with 201. (ii) With the provider configured
and validation succeeding, exactly one row is appended, with status `confirmed`
and the provider's id, and returned with 201. (iii) With the provider
configured and validation failing, the answer is the error 400 and the
`reservations` table is unchanged. (iv) When the insert fails the answer is the
error 500, no reservation is returned and the table is unchanged. The only
table a rejected request can have written is `hotel_mapping`. Validation
fails on a token error and whenever the provider answers no request with 200
(denial or transport error); when it succeeds, the id it returns is one the
provider answered 200 for. -/
theorem createReservation_admission (cfg : Config) (env : AdmissionEnv) (st : State)
    (bound : Reservation) (userID : Int) :
    ((cfg.amadeusClientID = "" ∨ cfg.amadeusSecret = "") → env.insertErr = none →
      ∃ row : Reservation,
        (UserService.createReservation cfg env st (.ok bound) userID).state.reservations
          = st.reservations ++ [row] ∧
        (UserService.createReservation cfg env st (.ok bound) userID).resp
          = ⟨201, .reservation row⟩ ∧
        row.Status = "pending" ∧ row.UserID = userID ∧ row.HotelID = bound.HotelID ∧
        row.CheckIn = bound.CheckIn ∧ row.CheckOut = bound.CheckOut) ∧
    ((cfg.amadeusClientID ≠ "" ∧ cfg.amadeusSecret ≠ "") →
      (UserService.validateWithAmadeus env st bound.HotelID bound.CheckIn bound.CheckOut).resp.1
        = true →
      env.insertErr = none →
      ∃ row : Reservation,
        (UserService.createReservation cfg env st (.ok bound) userID).state.reservations
          = st.reservations ++ [row] ∧
        (UserService.createReservation cfg env st (.ok bound) userID).resp
          = ⟨201, .reservation row⟩ ∧
        row.Status = "confirmed" ∧
        row.AmadeusID =
          (UserService.validateWithAmadeus env st bound.HotelID bound.CheckIn bound.CheckOut).resp.2 ∧
        row.UserID = userID ∧ row.HotelID = bound.HotelID ∧
        row.CheckIn = bound.CheckIn ∧ row.CheckOut = bound.CheckOut) ∧
    ((cfg.amadeusClientID ≠ "" ∧ cfg.amadeusSecret ≠ "") →
      (UserService.validateWithAmadeus env st bound.HotelID bound.CheckIn bound.CheckOut).resp.1
        = false →
      (UserService.createReservation cfg env st (.ok bound) userID).resp
        = ⟨400, .error "Reservation not available"⟩ ∧
      (UserService.createReservation cfg env st (.ok bound) userID).state.reservations
        = st.reservations ∧
      (UserService.createReservation cfg env st (.ok bound) userID).state.nextID
        = st.nextID) ∧
    (∀ msg, env.insertErr = some msg →
      ((cfg.amadeusClientID ≠ "" ∧ cfg.amadeusSecret ≠ "") →
        (UserService.validateWithAmadeus env st bound.HotelID bound.CheckIn bound.CheckOut).resp.1
          = true) →
      (UserService.createReservation cfg env st (.ok bound) userID).resp = ⟨500, .error msg⟩ ∧
      (UserService.createReservation cfg env st (.ok bound) userID).state.reservations
        = st.reservations ∧
      (UserService.createReservation cfg env st (.ok bound) userID).state.nextID
        = st.nextID) ∧
    ((env.token = none ∨ ∀ amadeusID token,
        env.offers amadeusID bound.CheckIn bound.CheckOut token ≠ some 200) →
      (UserService.validateWithAmadeus env st bound.HotelID bound.CheckIn bound.CheckOut).resp.1
        = false) ∧
    ((UserService.validateWithAmadeus env st bound.HotelID bound.CheckIn bound.CheckOut).resp.1
        = true →
      ∃ token, env.token = some token ∧
        env.offers
          (UserService.validateWithAmadeus env st bound.HotelID bound.CheckIn bound.CheckOut).resp.2
          bound.CheckIn bound.CheckOut token = some 200) := by
  refine ⟨?_, ?_, ?_, ?_, ?_, validateWithAmadeus_true env st _ _ _⟩
  · intro hno hins
    rw [createReservation_noProvider cfg env st bound userID hno]
    exact ⟨_, (persist_ok env st _ _ hins).2, (persist_ok env st _ _ hins).1,
      rfl, rfl, rfl, rfl, rfl⟩
  · intro hcfg hvalid hins
    rw [createReservation_accepted cfg env st bound userID hcfg hvalid]
    refine ⟨_, ?_, (persist_ok env _ _ _ hins).1, rfl, rfl, rfl, rfl, rfl, rfl⟩
    rw [(persist_ok env _ _ _ hins).2, validateWithAmadeus_reservations,
      validateWithAmadeus_nextID]
  · intro hcfg hinvalid
    rw [createReservation_rejected cfg env st bound userID hcfg hinvalid]
    exact ⟨rfl, validateWithAmadeus_reservations _ _ _ _ _,
      validateWithAmadeus_nextID _ _ _ _ _⟩
  · intro msg hins hvalid
    by_cases hcfg : cfg.amadeusClientID ≠ "" ∧ cfg.amadeusSecret ≠ ""
    · rw [createReservation_accepted cfg env st bound userID hcfg (hvalid hcfg)]
      refine ⟨(persist_err env _ _ _ msg hins).1, ?_, ?_⟩
      · rw [(persist_err env _ _ _ msg hins).2, validateWithAmadeus_reservations]
      · rw [(persist_err env _ _ _ msg hins).2, validateWithAmadeus_nextID]
    · have hno : cfg.amadeusClientID = "" ∨ cfg.amadeusSecret = "" := by
        by_contra h; push_neg at h; exact hcfg h
      rw [createReservation_noProvider cfg env st bound userID hno]
      refine ⟨(persist_err env _ _ _ msg hins).1, ?_, ?_⟩
      · rw [(persist_err env _ _ _ msg hins).2]
      · rw [(persist_err env _ _ _ msg hins).2]
  · intro hbad
    by_contra hne
    have htrue : (UserService.validateWithAmadeus env st bound.HotelID bound.CheckIn
        bound.CheckOut).resp.1 = true := by
      revert hne
      cases (UserService.validateWithAmadeus env st bound.HotelID bound.CheckIn
        bound.CheckOut).resp.1 <;> simp
    obtain ⟨token, htok, hoff⟩ := validateWithAmadeus_true env st _ _ _ htrue
    rcases hbad with h | h
    · rw [h] at htok; cases htok
    · exact h _ _ hoff

/-- C7 at concrete inputs, one per clause: no provider; provider accepting;
no token; store refusing the insert. -/
theorem createReservation_admission_witness :
    (∃ row : Reservation,
      (UserService.createReservation Scenario.noProvider Scenario.accepting State.empty
        (.ok (Scenario.stayA 20240601 20240603)) 7).state.reservations = [] ++ [row] ∧
      row.Status = "pending") ∧
    (∃ row : Reservation,
      (UserService.createReservation Scenario.withProvider Scenario.accepting State.empty
        (.ok (Scenario.stayA 20240601 20240603)) 7).state.reservations = [] ++ [row] ∧
      row.Status = "confirmed") ∧
    (UserService.createReservation Scenario.withProvider Scenario.noToken State.empty
        (.ok (Scenario.stayA 20240601 20240603)) 7).resp
      = ⟨400, .error "Reservation not available"⟩ ∧
    (UserService.createReservation Scenario.noProvider Scenario.storeDown State.empty
        (.ok (Scenario.stayA 20240601 20240603)) 7).resp
      = ⟨500, .error "connection refused"⟩ ∧
    (UserService.validateWithAmadeus Scenario.noToken State.empty "A" 20240601 20240603).resp.1
      = false ∧
    (∃ token, Scenario.accepting.token = some token) :=
  ⟨(let ⟨row, h1, _, h3, _⟩ :=
      (createReservation_admission Scenario.noProvider Scenario.accepting State.empty
        (Scenario.stayA 20240601 20240603) 7).1 (Or.inl rfl) rfl
    ⟨row, h1, h3⟩),
   (let ⟨row, h1, _, h3, _⟩ :=
      (createReservation_admission Scenario.withProvider Scenario.accepting State.empty
        (Scenario.stayA 20240601 20240603) 7).2.1 (by decide) (by decide) rfl
    ⟨row, h1, h3⟩),
   ((createReservation_admission Scenario.withProvider Scenario.noToken State.empty
      (Scenario.stayA 20240601 20240603) 7).2.2.1 (by decide) (by decide)).1,
   ((createReservation_admission Scenario.noProvider Scenario.storeDown State.empty
      (Scenario.stayA 20240601 20240603) 7).2.2.2.1 "connection refused" rfl
      (fun h => absurd rfl h.1)).1,
   (createReservation_admission Scenario.noProvider Scenario.noToken State.empty
      (Scenario.stayA 20240601 20240603) 7).2.2.2.2.1 (Or.inl rfl),
   (let ⟨token, h1, _⟩ :=
      (createReservation_admission Scenario.noProvider Scenario.accepting State.empty
        (Scenario.stayA 20240601 20240603) 7).2.2.2.2.2 (by decide)
    ⟨token, h1⟩)⟩

/-! ## The cache in front of the store -/

theorem createReservation_cache (cfg : Config) (env : AdmissionEnv) (st : State)
    (body : Except String Reservation) (userID : Int) :
    (UserService.createReservation cfg env st body userID).state.cache = st.cache := by
  cases body with
  | error msg => rfl
  | ok bound =>
    by_cases hcfg : cfg.amadeusClientID ≠ "" ∧ cfg.amadeusSecret ≠ ""
    · cases hv : (UserService.validateWithAmadeus env st bound.HotelID bound.CheckIn
          bound.CheckOut).resp.1
      · rw [createReservation_rejected cfg env st bound userID hcfg hv]
        exact validateWithAmadeus_cache _ _ _ _ _
      · rw [createReservation_accepted cfg env st bound userID hcfg hv]
        unfold UserService.persist
        cases env.insertErr <;> exact validateWithAmadeus_cache _ _ _ _ _
    · have hno : cfg.amadeusClientID = "" ∨ cfg.amadeusSecret = "" := by
        by_contra h; push_neg at h; exact hcfg h
      rw [createReservation_noProvider cfg env st bound userID hno]
      unfold UserService.persist
      cases env.insertErr <;> rfl

theorem persist_created (env : AdmissionEnv) (st : State) (trace : List Effect)
    (r row : Reservation)
    (h : (UserService.persist env st trace r).resp = ⟨201, .reservation row⟩) :
    (UserService.persist env st trace r).state.reservations = st.reservations ++ [row] := by
  unfold UserService.persist at h ⊢
  cases hins : env.insertErr with
  | some msg => rw [hins] at h; simp at h
  | none =>
    rw [hins] at h
    simp only [CreateResponse.mk.injEq, CreateBody.reservation.injEq, true_and] at h
    rw [← h]
    rfl

theorem createReservation_created (cfg : Config) (env : AdmissionEnv) (st : State)
    (body : Except String Reservation) (userID : Int) (row : Reservation)
    (h : (UserService.createReservation cfg env st body userID).resp = ⟨201, .reservation row⟩) :
    (UserService.createReservation cfg env st body userID).state.reservations
      = st.reservations ++ [row] := by
  cases body with
  | error msg => simp [UserService.createReservation] at h
  | ok bound =>
    by_cases hcfg : cfg.amadeusClientID ≠ "" ∧ cfg.amadeusSecret ≠ ""
    · cases hv : (UserService.validateWithAmadeus env st bound.HotelID bound.CheckIn
          bound.CheckOut).resp.1
      · rw [createReservation_rejected cfg env st bound userID hcfg hv] at h
        simp at h
      · rw [createReservation_accepted cfg env st bound userID hcfg hv] at h ⊢
        rw [persist_created env _ _ _ row h, validateWithAmadeus_reservations]
    · have hno : cfg.amadeusClientID = "" ∨ cfg.amadeusSecret = "" := by
        by_contra h; push_neg at h; exact hcfg h
      rw [createReservation_noProvider cfg env st bound userID hno] at h ⊢
      exact persist_created env _ _ _ row h

theorem checkAvailability_hit (toDate : String → Date) (env : Env) (st : State)
    (hotelID checkIn checkOut : String) (item : Item)
    (hh : hotelID ≠ "") (hin : checkIn ≠ "") (hout : checkOut ≠ "")
    (hhit : Memcached.get env.cacheErr env.now st.cache
      (UserService.cacheKey hotelID checkIn checkOut) = some item) :
    UserService.checkAvailability toDate env st hotelID checkIn checkOut
      = ⟨⟨200, item.Value⟩, st, [.cacheGet (UserService.cacheKey hotelID checkIn checkOut)]⟩ := by
  have hparams : ¬ (hotelID = "" ∨ checkIn = "" ∨ checkOut = "") := by
    rintro (h | h | h)
    · exact hh h
    · exact hin h
    · exact hout h
  simp only [UserService.checkAvailability, if_neg hparams, hhit]

theorem checkAvailability_miss (toDate : String → Date) (env : Env) (st : State)
    (hotelID checkIn checkOut : String)
    (hh : hotelID ≠ "") (hin : checkIn ≠ "") (hout : checkOut ≠ "")
    (hmiss : Memcached.get env.cacheErr env.now st.cache
      (UserService.cacheKey hotelID checkIn checkOut) = none) :
    UserService.checkAvailability toDate env st hotelID checkIn checkOut
      = ⟨⟨200, some (UserService.resultMap
            ((UserService.queryCount env.queryErr st.reservations hotelID (toDate checkIn)
              (toDate checkOut)).getD 0 == 0) hotelID checkIn checkOut)⟩,
          { st with cache := (Memcached.set env.cacheErr st.cache
              (Item.mk (UserService.cacheKey hotelID checkIn checkOut)
               (some (UserService.resultMap
                ((UserService.queryCount env.queryErr st.reservations hotelID (toDate checkIn)
                  (toDate checkOut)).getD 0 == 0) hotelID checkIn checkOut))
               (env.now + 10))) },
          [.cacheGet (UserService.cacheKey hotelID checkIn checkOut),
           .storeQuery hotelID checkIn checkOut,
           .cacheSet (UserService.cacheKey hotelID checkIn checkOut)]⟩ := by
  have hparams : ¬ (hotelID = "" ∨ checkIn = "" ∨ checkOut = "") := by
    rintro (h | h | h)
    · exact hh h
    · exact hin h
    · exact hout h
  simp only [UserService.checkAvailability, if_neg hparams, hmiss]
  cases UserService.queryCount env.queryErr st.reservations hotelID (toDate checkIn)
    (toDate checkOut) <;> rfl

theorem get_set (cache : List Item) (item : Item) (now : Nat) (h : now < item.expiresAt) :
    Memcached.get false now (Memcached.set false cache item) item.Key = some item := by
  simp [Memcached.get, Memcached.set, List.find?, h]

/-- C8 (as stated, fails): the query `(A, 2024-06-01, 2024-06-03)` is answered
`available = true` at second 0 and cached; the provider then accepts a stay of
`A` over `[2024-06-01, 2024-06-02)`, stored as `confirmed` and overlapping the
queried range; the same query at second 1 finds the cached entry and is
answered 200 with `available = true`. -/
theorem stale_available_served_after_admission :
    (UserService.createReservation Scenario.withProvider Scenario.accepting Scenario.afterQuery
        (.ok (Scenario.stayA 20240601 20240602)) 7).resp
      = ⟨201, .reservation ⟨1, 7, "A", 20240601, 20240602, "confirmed", "YXPARKPR"⟩⟩ ∧
    Spec.overlaps 20240601 20240602 (isoDate "2024-06-01") (isoDate "2024-06-03") ∧
    (Memcached.get false 1 Scenario.queriedThenBooked.cache
      (UserService.cacheKey "A" "2024-06-01" "2024-06-03")).isSome = true ∧
    (UserService.checkAvailability isoDate ⟨1, false, false⟩ Scenario.queriedThenBooked
        "A" "2024-06-01" "2024-06-03").resp
      = ⟨200, some (UserService.resultMap true "A" "2024-06-01" "2024-06-03")⟩ := by
  decide

/-- C8 (amended): `createReservation` leaves the cache as it is. Hence a
`checkAvailability` issued after it for a query with a live cached entry is
answered with that entry, whatever the store now holds; and one that finds no
live entry, while the store query works, is answered `available = false` when
the admission returned a `confirmed` row of the queried hotel whose range
overlaps the queried range and covers its first or its last night. -/
theorem checkAvailability_after_admission (toDate : String → Date) (cfg : Config)
    (aenv : AdmissionEnv) (env : Env) (st : State) (body : Except String Reservation)
    (userID : Int) (hotelID checkIn checkOut : String)
    (hh : hotelID ≠ "") (hin : checkIn ≠ "") (hout : checkOut ≠ "") :
    (UserService.createReservation cfg aenv st body userID).state.cache = st.cache ∧
    (∀ item, Memcached.get env.cacheErr env.now st.cache
        (UserService.cacheKey hotelID checkIn checkOut) = some item →
      (UserService.checkAvailability toDate env
        (UserService.createReservation cfg aenv st body userID).state
        hotelID checkIn checkOut).resp = ⟨200, item.Value⟩) ∧
    (∀ row, (UserService.createReservation cfg aenv st body userID).resp
        = ⟨201, .reservation row⟩ →
      row.Status = "confirmed" → row.HotelID = hotelID →
      Spec.overlaps row.CheckIn row.CheckOut (toDate checkIn) (toDate checkOut) →
      (row.CheckIn ≤ toDate checkIn ∨ toDate checkOut ≤ row.CheckOut) →
      Memcached.get env.cacheErr env.now st.cache
        (UserService.cacheKey hotelID checkIn checkOut) = none →
      env.queryErr = false →
      (UserService.checkAvailability toDate env
        (UserService.createReservation cfg aenv st body userID).state
        hotelID checkIn checkOut).resp
        = ⟨200, some (UserService.resultMap false hotelID checkIn checkOut)⟩) := by
  have hcache := createReservation_cache cfg aenv st body userID
  refine ⟨hcache, ?_, ?_⟩
  · intro item hhit
    rw [← hcache] at hhit
    rw [checkAvailability_hit toDate env _ hotelID checkIn checkOut item hh hin hout hhit]
  · intro row hresp hstatus hhotel hov hedge hmiss hquery
    rw [← hcache] at hmiss
    rw [checkAvailability_miss toDate env _ hotelID checkIn checkOut hh hin hout hmiss,
      createReservation_created cfg aenv st body userID row hresp, hquery]
    have hmatch : UserService.sqlMatches hotelID (toDate checkIn) (toDate checkOut) row = true := by
      obtain ⟨h1, h2⟩ := hov
      rcases hedge with h | h
      · simp [UserService.sqlMatches, hstatus, hhotel, h, h2]
      · simp [UserService.sqlMatches, hstatus, hhotel, h, h1]
    simp [UserService.queryCount, List.filter_append, hmatch]

/-- C8 (amended) at a concrete input: with the cached entry of second 0 still
live at second 1 the stale entry is served; at second 10 it has expired and the
answer is `available = false`. -/
theorem checkAvailability_after_admission_witness :
    (UserService.checkAvailability isoDate ⟨1, false, false⟩ Scenario.queriedThenBooked
        "A" "2024-06-01" "2024-06-03").resp
      = ⟨200, some (UserService.resultMap true "A" "2024-06-01" "2024-06-03")⟩ ∧
    (UserService.checkAvailability isoDate ⟨10, false, false⟩ Scenario.queriedThenBooked
        "A" "2024-06-01" "2024-06-03").resp
      = ⟨200, some (UserService.resultMap false "A" "2024-06-01" "2024-06-03")⟩ :=
  ⟨(checkAvailability_after_admission isoDate Scenario.withProvider Scenario.accepting
      ⟨1, false, false⟩ Scenario.afterQuery (.ok (Scenario.stayA 20240601 20240602)) 7
      "A" "2024-06-01" "2024-06-03" (by decide) (by decide) (by decide)).2.1
      ⟨UserService.cacheKey "A" "2024-06-01" "2024-06-03",
        some (UserService.resultMap true "A" "2024-06-01" "2024-06-03"), 10⟩ (by decide),
   (checkAvailability_after_admission isoDate Scenario.withProvider Scenario.accepting
      ⟨10, false, false⟩ Scenario.afterQuery (.ok (Scenario.stayA 20240601 20240602)) 7
      "A" "2024-06-01" "2024-06-03" (by decide) (by decide) (by decide)).2.2
      ⟨1, 7, "A", 20240601, 20240602, "confirmed", "YXPARKPR"⟩
      (by decide) (by decide) (by decide) (by decide) (by decide) (by decide) (by decide)⟩

/-- C9: for a query with all three parameters present, a cache hit is answered
200 with exactly the cached value, leaves the state as it is and issues the
cache read only (no store query, no cache write). Consequently, when a miss is
answered with the cache working, an identical query less than 10 seconds later,
with the cache working and whatever the tables then hold, is answered with the
same response. -/
theorem checkAvailability_cache_hit (toDate : String → Date)
    (hotelID checkIn checkOut : String)
    (hh : hotelID ≠ "") (hin : checkIn ≠ "") (hout : checkOut ≠ "") :
    (∀ (env : Env) (st : State) (item : Item),
      Memcached.get env.cacheErr env.now st.cache
        (UserService.cacheKey hotelID checkIn checkOut) = some item →
      UserService.checkAvailability toDate env st hotelID checkIn checkOut
        = ⟨⟨200, item.Value⟩, st,
            [.cacheGet (UserService.cacheKey hotelID checkIn checkOut)]⟩) ∧
    (∀ (env1 env2 : Env) (st1 st2 : State),
      Memcached.get env1.cacheErr env1.now st1.cache
        (UserService.cacheKey hotelID checkIn checkOut) = none →
      env1.cacheErr = false → env2.cacheErr = false → env2.now < env1.now + 10 →
      st2.cache
        = (UserService.checkAvailability toDate env1 st1 hotelID checkIn checkOut).state.cache →
      (UserService.checkAvailability toDate env2 st2 hotelID checkIn checkOut).resp
        = (UserService.checkAvailability toDate env1 st1 hotelID checkIn checkOut).resp) := by
  refine ⟨fun env st item hhit =>
    checkAvailability_hit toDate env st hotelID checkIn checkOut item hh hin hout hhit, ?_⟩
  intro env1 env2 st1 st2 hmiss hc1 hc2 hnow hcache
  rw [checkAvailability_miss toDate env1 st1 hotelID checkIn checkOut hh hin hout hmiss] at hcache ⊢
  simp only [hc1] at hcache
  have hhit := get_set st1.cache
    ⟨UserService.cacheKey hotelID checkIn checkOut,
      some (UserService.resultMap
        ((UserService.queryCount env1.queryErr st1.reservations hotelID (toDate checkIn)
          (toDate checkOut)).getD 0 == 0) hotelID checkIn checkOut),
      env1.now + 10⟩ env2.now hnow
  rw [← hcache, ← hc2] at hhit
  rw [checkAvailability_hit toDate env2 st2 hotelID checkIn checkOut _ hh hin hout hhit]

/-- C9 at a concrete input: the entry cached at second 0 is served at second 1;
and the query answered from the empty store at second 0 gets the same response
at second 5, after a conflicting stay was admitted. -/
theorem checkAvailability_cache_hit_witness :
    UserService.checkAvailability isoDate ⟨1, false, false⟩ Scenario.afterQuery
        "A" "2024-06-01" "2024-06-03"
      = ⟨⟨200, some (UserService.resultMap true "A" "2024-06-01" "2024-06-03")⟩,
          Scenario.afterQuery, [.cacheGet (UserService.cacheKey "A" "2024-06-01" "2024-06-03")]⟩ ∧
    (UserService.checkAvailability isoDate ⟨5, false, false⟩ Scenario.queriedThenBooked
        "A" "2024-06-01" "2024-06-03").resp
      = (UserService.checkAvailability isoDate ⟨0, false, false⟩ State.empty
        "A" "2024-06-01" "2024-06-03").resp :=
  ⟨(checkAvailability_cache_hit isoDate "A" "2024-06-01" "2024-06-03"
      (by decide) (by decide) (by decide)).1 ⟨1, false, false⟩ Scenario.afterQuery
      ⟨UserService.cacheKey "A" "2024-06-01" "2024-06-03",
        some (UserService.resultMap true "A" "2024-06-01" "2024-06-03"), 10⟩ (by decide),
   (checkAvailability_cache_hit isoDate "A" "2024-06-01" "2024-06-03"
      (by decide) (by decide) (by decide)).2 ⟨0, false, false⟩ ⟨5, false, false⟩
      State.empty Scenario.queriedThenBooked (by decide) rfl rfl (by decide) (by decide)⟩

/-- C10 (fails on the code): hotel `A` has a confirmed stay over
`[2024-06-01, 2024-06-02)` and the cache is empty. When the store query for
`(A, 2024-06-01, 2024-06-03)` returns an error, `checkAvailability` answers 200
with `available = true` and caches that answer for 10 seconds, so the same
query one second later, with the store back, is still answered `available =
true`. When only the cache fails, the store is queried and the answer is 200
with `available = false`. -/
theorem checkAvailability_store_error_reported_available :
    (UserService.checkAvailability isoDate ⟨0, false, true⟩ (Scenario.bookedA 20240601 20240602)
        "A" "2024-06-01" "2024-06-03").resp
      = ⟨200, some (UserService.resultMap true "A" "2024-06-01" "2024-06-03")⟩ ∧
    (UserService.checkAvailability isoDate ⟨0, false, true⟩ (Scenario.bookedA 20240601 20240602)
        "A" "2024-06-01" "2024-06-03").state.cache
      = [⟨UserService.cacheKey "A" "2024-06-01" "2024-06-03",
          some (UserService.resultMap true "A" "2024-06-01" "2024-06-03"), 10⟩] ∧
    (UserService.checkAvailability isoDate ⟨1, false, false⟩
        (UserService.checkAvailability isoDate ⟨0, false, true⟩
          (Scenario.bookedA 20240601 20240602) "A" "2024-06-01" "2024-06-03").state
        "A" "2024-06-01" "2024-06-03").resp
      = ⟨200, some (UserService.resultMap true "A" "2024-06-01" "2024-06-03")⟩ ∧
    (UserService.checkAvailability isoDate ⟨0, true, false⟩ (Scenario.bookedA 20240601 20240602)
        "A" "2024-06-01" "2024-06-03").resp
      = ⟨200, some (UserService.resultMap false "A" "2024-06-01" "2024-06-03")⟩ := by
  decide

/-! ## The Index Synchronizer -/

theorem indexHotel_eq (hotelData : JObject) (id : String)
    (hid : hotelData.lookup "id" = some (.string id)) :
    ∃ doc : JObject,
      (∀ key ∈ Spec.indexFields, doc.lookup key = some ((hotelData.lookup key).getD .null)) ∧
      ∀ (env : IndexEnv) (index : Index), SearchService.indexHotel env index hotelData
        = if env.postErr = true then index
          else fun key => if key = id then some doc else index key := by
  refine ⟨[("id", (hotelData.lookup "id").getD .null), ("name", (hotelData.lookup "name").getD .null),
     ("description", (hotelData.lookup "description").getD .null),
     ("city", (hotelData.lookup "city").getD .null),
     ("address", (hotelData.lookup "address").getD .null),
     ("amenities", (hotelData.lookup "amenities").getD .null),
     ("images", (hotelData.lookup "images").getD .null),
     ("thumbnail", (hotelData.lookup "thumbnail").getD .null),
     ("amadeus_id", (hotelData.lookup "amadeus_id").getD .null)], ?_, fun env index => ?_⟩
  · intro key hkey
    simp only [Spec.indexFields, List.mem_cons, List.mem_singleton, List.not_mem_nil,
      or_false] at hkey
    rcases hkey with h | h | h | h | h | h | h | h | h <;> subst h <;> rfl
  · unfold SearchService.indexHotel Solr.add
    simp only [List.lookup, hid, Option.getD_some]
    rfl

/-- What a well-formed event does: for a value `v` that depends on the event
only (`some doc` for `created` and `updated`, `none` for `deleted`), the
iteration completes and, when the index write succeeds, stores `v` under the
event's id and leaves every other id alone. -/
theorem handleMessage_wellFormed (body : Option JValue) (action id : String)
    (hotelData : JObject) (hwf : Spec.WellFormed body action id hotelData) :
    ∃ v : Option JObject,
      (action = "deleted" → v = none) ∧
      (action ≠ "deleted" → ∃ doc, v = some doc ∧
        ∀ key ∈ Spec.indexFields, doc.lookup key = some ((hotelData.lookup key).getD .null)) ∧
      ∀ (env : IndexEnv) (index : Index), SearchService.handleMessage env index body
        = .next (if env.postErr = true then index
                 else fun key => if key = id then v else index key) := by
  obtain ⟨fields, hbody, haction, hhotel, hid, hact⟩ := hwf
  subst hbody
  by_cases hdel : action = "deleted"
  · refine ⟨none, fun _ => rfl, fun h => absurd hdel h, fun env index => ?_⟩
    subst hdel
    simp only [SearchService.handleMessage, SearchService.unmarshalMap, haction, hhotel, hid]
    simp [SearchService.deleteHotelFromIndex, Solr.deleteById]
  · obtain ⟨doc, hdoc, heq⟩ := indexHotel_eq hotelData id hid
    have hups : action = "created" ∨ action = "updated" := by
      rcases hact with h | h | h
      · exact Or.inl h
      · exact Or.inr h
      · exact absurd h hdel
    refine ⟨some doc, fun h => absurd h hdel, fun _ => ⟨doc, rfl, hdoc⟩, fun env index => ?_⟩
    simp only [SearchService.handleMessage, SearchService.unmarshalMap, haction, hhotel,
      if_pos hups, heq]

/-- C11: for a well-formed `created` or `updated` event, handling the event
twice leaves the index as handling it once does (the second write may fail only
if the first did), the iteration never aborts, and a successful write stores
under the event's hotel id a document holding the nine fields of the event's
hotel and leaves the document of every other id unchanged. -/
theorem index_upsert_idempotent (env env2 : IndexEnv) (index : Index) (body : Option JValue)
    (action id : String) (hotelData : JObject)
    (hwf : Spec.WellFormed body action id hotelData)
    (hact : action = "created" ∨ action = "updated")
    (henv : env.postErr = true → env2.postErr = true) :
    SearchService.listenForHotelUpdates index [(env, body), (env2, body)]
      = SearchService.listenForHotelUpdates index [(env, body)] ∧
    ∃ index1 : Index, SearchService.handleMessage env index body = .next index1 ∧
      (env.postErr = false → ∃ doc : JObject, index1 id = some doc ∧
        (∀ key ∈ Spec.indexFields, doc.lookup key = some ((hotelData.lookup key).getD .null)) ∧
        ∀ other, other ≠ id → index1 other = index other) := by
  obtain ⟨v, _, hv, hstep⟩ := handleMessage_wellFormed body action id hotelData hwf
  have hnodel : action ≠ "deleted" := by
    rcases hact with h | h <;> subst h <;> decide
  obtain ⟨doc, hvdoc, hdoc⟩ := hv hnodel
  constructor
  · simp only [SearchService.listenForHotelUpdates, hstep]
    congr 1
    cases h1 : env.postErr
    · cases h2 : env2.postErr
      · funext key
        by_cases hk : key = id <;> simp [hk]
      · simp
    · simp [henv h1]
  · refine ⟨_, hstep env index, fun hok => ⟨doc, ?_, hdoc, fun other hother => ?_⟩⟩
    · simp [hok, hvdoc]
    · simp [hok, hother]

/-- C11 at a concrete input: the `updated` event of `hotelH` on the empty
index, with writes that succeed. -/
theorem index_upsert_idempotent_witness :
    SearchService.listenForHotelUpdates Scenario.emptyIndex
        [(Scenario.writes, Scenario.updatedH), (Scenario.writes, Scenario.updatedH)]
      = SearchService.listenForHotelUpdates Scenario.emptyIndex
        [(Scenario.writes, Scenario.updatedH)] :=
  (index_upsert_idempotent Scenario.writes Scenario.writes Scenario.emptyIndex Scenario.updatedH
    "updated" "64b7f0c2a1d3e4f5a6b7c8d9"
    Scenario.hotelH.fields
    ⟨_, rfl, rfl, rfl, rfl, Or.inr (Or.inl rfl)⟩ (Or.inr rfl) (fun h => h)).1

/-- C12 (as stated, fails): `updatedH` and the later `deletedH` are well-formed
events for the same hotel id. Handled in emission order they leave no document
under that id; handled in the reverse order they leave the document of the
stale `updated` event, so the two orders end in different index states. -/
theorem stale_update_resurrects_deleted_hotel :
    (∃ hotelData, Spec.WellFormed Scenario.updatedH "updated" "64b7f0c2a1d3e4f5a6b7c8d9"
      hotelData) ∧
    (∃ hotelData, Spec.WellFormed Scenario.deletedH "deleted" "64b7f0c2a1d3e4f5a6b7c8d9"
      hotelData) ∧
    (SearchService.listenForHotelUpdates Scenario.emptyIndex
      [(Scenario.writes, Scenario.updatedH), (Scenario.writes, Scenario.deletedH)]).document
        "64b7f0c2a1d3e4f5a6b7c8d9" = some none ∧
    (SearchService.listenForHotelUpdates Scenario.emptyIndex
      [(Scenario.writes, Scenario.deletedH), (Scenario.writes, Scenario.updatedH)]).document
        "64b7f0c2a1d3e4f5a6b7c8d9" = some (some Scenario.docH) ∧
    SearchService.listenForHotelUpdates Scenario.emptyIndex
        [(Scenario.writes, Scenario.deletedH), (Scenario.writes, Scenario.updatedH)]
      ≠ SearchService.listenForHotelUpdates Scenario.emptyIndex
        [(Scenario.writes, Scenario.updatedH), (Scenario.writes, Scenario.deletedH)] := by
  refine ⟨⟨_, _, rfl, rfl, rfl, rfl, Or.inr (Or.inl rfl)⟩,
    ⟨_, _, rfl, rfl, rfl, rfl, Or.inr (Or.inr rfl)⟩, by decide, by decide, fun h => ?_⟩
  have h' := congrArg (fun s => LoopStep.document s "64b7f0c2a1d3e4f5a6b7c8d9") h
  revert h'
  decide

/-- C12 (amended): the handler applies events in arrival order and the event
handled last wins. For two well-formed events `body1`, `body2` for the same
hotel id, handling `body1` and then `body2` (its write succeeding) leaves the
index as handling `body2` alone does, and handling `body2` and then `body1`
(its write succeeding) leaves it as handling `body1` alone does. -/
theorem last_applied_event_wins (env1 env2 : IndexEnv) (index : Index)
    (body1 body2 : Option JValue) (action1 action2 id : String) (hotelData1 hotelData2 : JObject)
    (hwf1 : Spec.WellFormed body1 action1 id hotelData1)
    (hwf2 : Spec.WellFormed body2 action2 id hotelData2) :
    SearchService.listenForHotelUpdates index [(env1, body1), (⟨false⟩, body2)]
      = SearchService.listenForHotelUpdates index [(⟨false⟩, body2)] ∧
    SearchService.listenForHotelUpdates index [(env2, body2), (⟨false⟩, body1)]
      = SearchService.listenForHotelUpdates index [(⟨false⟩, body1)] := by
  obtain ⟨v1, _, _, hstep1⟩ := handleMessage_wellFormed body1 action1 id hotelData1 hwf1
  obtain ⟨v2, _, _, hstep2⟩ := handleMessage_wellFormed body2 action2 id hotelData2 hwf2
  constructor
  · simp only [SearchService.listenForHotelUpdates, hstep1, hstep2]
    congr 1
    funext key
    by_cases hk : key = id <;> cases env1.postErr <;> simp [hk]
  · simp only [SearchService.listenForHotelUpdates, hstep1, hstep2]
    congr 1
    funext key
    by_cases hk : key = id <;> cases env2.postErr <;> simp [hk]

/-- C12 (amended) at a concrete input: `updatedH` and `deletedH` on the empty
index. -/
theorem last_applied_event_wins_witness :
    SearchService.listenForHotelUpdates Scenario.emptyIndex
        [(Scenario.writes, Scenario.updatedH), (⟨false⟩, Scenario.deletedH)]
      = SearchService.listenForHotelUpdates Scenario.emptyIndex [(⟨false⟩, Scenario.deletedH)] ∧
    SearchService.listenForHotelUpdates Scenario.emptyIndex
        [(Scenario.writes, Scenario.deletedH), (⟨false⟩, Scenario.updatedH)]
      = SearchService.listenForHotelUpdates Scenario.emptyIndex [(⟨false⟩, Scenario.updatedH)] :=
  last_applied_event_wins Scenario.writes Scenario.writes Scenario.emptyIndex
    Scenario.updatedH Scenario.deletedH "updated" "deleted" "64b7f0c2a1d3e4f5a6b7c8d9"
    Scenario.hotelH.fields
    (HotelService.deletedHotel "64b7f0c2a1d3e4f5a6b7c8d9").fields
    ⟨_, rfl, rfl, rfl, rfl, Or.inr (Or.inl rfl)⟩ ⟨_, rfl, rfl, rfl, rfl, Or.inr (Or.inr rfl)⟩

/-- C13 (fails on the code): a body that is not valid JSON is dropped and the
loop goes on to index the next event. A body that is valid JSON without a
string `action` (`{}`, `null`, `{"action": 1, ...}`), without an object `hotel`,
or a `deleted` event without a string hotel `id`, aborts the iteration on a
failed type assertion, and the event delivered after it is never handled. -/
theorem malformed_event_aborts_loop :
    (SearchService.listenForHotelUpdates Scenario.emptyIndex
      [(Scenario.writes, none), (Scenario.writes, Scenario.updatedH)]).document
        "64b7f0c2a1d3e4f5a6b7c8d9" = some (some Scenario.docH) ∧
    (SearchService.handleMessage Scenario.writes Scenario.emptyIndex
      (some (.object []))).document "64b7f0c2a1d3e4f5a6b7c8d9" = none ∧
    (SearchService.handleMessage Scenario.writes Scenario.emptyIndex
      (some .null)).document "64b7f0c2a1d3e4f5a6b7c8d9" = none ∧
    (SearchService.handleMessage Scenario.writes Scenario.emptyIndex
      (some (.object [("action", .number 1), ("hotel", .object [])]))).document
        "64b7f0c2a1d3e4f5a6b7c8d9" = none ∧
    (SearchService.handleMessage Scenario.writes Scenario.emptyIndex
      (some (.object [("action", .string "updated")]))).document
        "64b7f0c2a1d3e4f5a6b7c8d9" = none ∧
    (SearchService.handleMessage Scenario.writes Scenario.emptyIndex
      (some (.object [("action", .string "updated"), ("hotel", .string "h")]))).document
        "64b7f0c2a1d3e4f5a6b7c8d9" = none ∧
    (SearchService.handleMessage Scenario.writes Scenario.emptyIndex
      (some (.object [("action", .string "deleted"), ("hotel", .object [])]))).document
        "64b7f0c2a1d3e4f5a6b7c8d9" = none ∧
    (SearchService.listenForHotelUpdates Scenario.emptyIndex
      [(Scenario.writes, some (.object [])), (Scenario.writes, Scenario.updatedH)]).document
        "64b7f0c2a1d3e4f5a6b7c8d9" = none := by
  refine ⟨by decide, by decide, by decide, by decide, by decide, by decide, by decide, by decide⟩

/-! ## Parameter validation -/

/-- C14: `searchHotels` answers 400 exactly when `city` is empty, and then
issues no request at all (no index query, no availability lookup);
`checkAvailability` of user-service answers 400 exactly when one of `hotel_id`,
`check_in`, `check_out` is empty, and then issues no cache or store operation
and leaves tables and cache as they are. -/
theorem parameter_validation (solr : String → SolrReply)
    (get : Nat → String → String → String → HttpResult) (city searchIn searchOut : String)
    (toDate : String → Date) (env : Env) (st : State) (hotelID checkIn checkOut : String) :
    ((SearchService.searchHotels solr get city searchIn searchOut).resp.status = 400
      ↔ city = "") ∧
    (city = "" → SearchService.searchHotels solr get city searchIn searchOut
      = ⟨⟨400, .error "City parameter is required"⟩, []⟩) ∧
    ((UserService.checkAvailability toDate env st hotelID checkIn checkOut).resp.status = 400
      ↔ (hotelID = "" ∨ checkIn = "" ∨ checkOut = "")) ∧
    ((hotelID = "" ∨ checkIn = "" ∨ checkOut = "") →
      (UserService.checkAvailability toDate env st hotelID checkIn checkOut).resp
        = ⟨400, some [("error", .string "Missing required parameters")]⟩ ∧
      (UserService.checkAvailability toDate env st hotelID checkIn checkOut).state = st ∧
      (UserService.checkAvailability toDate env st hotelID checkIn checkOut).trace = []) := by
  refine ⟨⟨fun h => ?_, fun h => ?_⟩, fun h => ?_, ⟨fun h => ?_, fun h => ?_⟩, fun h => ?_⟩
  · by_contra hcity
    unfold SearchService.searchHotels at h
    rw [if_neg hcity] at h
    revert h
    dsimp only
    cases solr ("city:" ++ city) <;> simp
  · simp [SearchService.searchHotels, h]
  · simp [SearchService.searchHotels, h]
  · by_contra hparams
    unfold UserService.checkAvailability at h
    rw [if_neg hparams] at h
    revert h
    dsimp only
    cases Memcached.get env.cacheErr env.now st.cache
      (UserService.cacheKey hotelID checkIn checkOut) <;> simp
  · simp only [UserService.checkAvailability, if_pos h]
  · simp only [UserService.checkAvailability, if_pos h, and_self]

/-- C14 at concrete inputs: a search without city and an availability query
without dates. -/
theorem parameter_validation_witness :
    SearchService.searchHotels Scenario.parisIndex Scenario.allYes "" "2024-06-01" "2024-06-03"
      = ⟨⟨400, .error "City parameter is required"⟩, []⟩ ∧
    (UserService.checkAvailability isoDate ⟨0, false, false⟩ Scenario.innerStay "A" "" "").state
      = Scenario.innerStay ∧
    (UserService.checkAvailability isoDate ⟨0, false, false⟩ Scenario.innerStay "A" "" "").trace
      = [] :=
  ⟨(parameter_validation Scenario.parisIndex Scenario.allYes "" "2024-06-01" "2024-06-03"
      isoDate ⟨0, false, false⟩ Scenario.innerStay "A" "" "").2.1 rfl,
   ((parameter_validation Scenario.parisIndex Scenario.allYes "" "2024-06-01" "2024-06-03"
      isoDate ⟨0, false, false⟩ Scenario.innerStay "A" "" "").2.2.2 (Or.inr (Or.inl rfl))).2⟩

/-! ## The cache key -/

theorem split_at_separator (c : Char) (l1 l2 r1 r2 : List Char) (h1 : c ∉ l1) (h2 : c ∉ l2)
    (h : l1 ++ c :: r1 = l2 ++ c :: r2) : l1 = l2 ∧ r1 = r2 := by
  induction l1 generalizing l2 with
  | nil =>
    cases l2 with
    | nil => simpa using h
    | cons b l2 =>
      simp only [List.nil_append, List.cons_append, List.cons.injEq] at h
      exact absurd (h.1 ▸ List.mem_cons_self _ _) h2
  | cons a l1 ih =>
    cases l2 with
    | nil =>
      simp only [List.nil_append, List.cons_append, List.cons.injEq] at h
      exact absurd (h.1 ▸ List.mem_cons_self _ _) h1
    | cons b l2 =>
      simp only [List.cons_append, List.cons.injEq] at h
      obtain ⟨hl, hr⟩ := ih l2 (fun hm => h1 (List.mem_cons_of_mem _ hm))
        (fun hm => h2 (List.mem_cons_of_mem _ hm)) h.2
      exact ⟨by rw [h.1, hl], hr⟩

theorem cacheKey_data (hotelID checkIn checkOut : String) :
    (UserService.cacheKey hotelID checkIn checkOut).data
      = "availability_".data ++ (hotelID.data ++ '_' :: (checkIn.data ++ '_' :: checkOut.data)) := by
  simp only [UserService.cacheKey, String.data_append, List.append_assoc]
  rfl

/-- C15 (as stated, fails): the queries `(H_2024-06-01, 2024-06-02, 2024-06-03)`
and `(H, 2024-06-01_2024-06-02, 2024-06-03)` have non-empty components, differ,
and get the same cache key, so the key is not injective on non-empty strings. -/
theorem cacheKey_collision :
    ¬ ∀ hotelID checkIn checkOut hotelID' checkIn' checkOut' : String,
      hotelID ≠ "" → checkIn ≠ "" → checkOut ≠ "" →
      hotelID' ≠ "" → checkIn' ≠ "" → checkOut' ≠ "" →
      UserService.cacheKey hotelID checkIn checkOut
        = UserService.cacheKey hotelID' checkIn' checkOut' →
      hotelID = hotelID' ∧ checkIn = checkIn' ∧ checkOut = checkOut' := by
  intro h
  have h' := h "H_2024-06-01" "2024-06-02" "2024-06-03" "H" "2024-06-01_2024-06-02" "2024-06-03"
    (by decide) (by decide) (by decide) (by decide) (by decide) (by decide) (by decide)
  exact absurd h'.1 (by decide)

/-- C15 (amended): on queries whose hotel id and check-in text contain no
underscore, the cache key is injective: equal keys come from equal queries. -/
theorem cacheKey_injective (hotelID checkIn checkOut hotelID' checkIn' checkOut' : String)
    (hh : '_' ∉ hotelID.data) (hin : '_' ∉ checkIn.data)
    (hh' : '_' ∉ hotelID'.data) (hin' : '_' ∉ checkIn'.data)
    (hkey : UserService.cacheKey hotelID checkIn checkOut
      = UserService.cacheKey hotelID' checkIn' checkOut') :
    hotelID = hotelID' ∧ checkIn = checkIn' ∧ checkOut = checkOut' := by
  have hdata := congrArg String.data hkey
  rw [cacheKey_data, cacheKey_data] at hdata
  have h1 := List.append_cancel_left hdata
  obtain ⟨e1, h2⟩ := split_at_separator '_' _ _ _ _ hh hh' h1
  obtain ⟨e2, e3⟩ := split_at_separator '_' _ _ _ _ hin hin' h2
  exact ⟨String.ext e1, String.ext e2, String.ext e3⟩

/-- C15 (amended) at a concrete input: the key of `(A, 2024-06-01, 2024-06-03)`
belongs to that query only. -/
theorem cacheKey_injective_witness :
    '_' ∉ "A".data ∧ '_' ∉ "2024-06-01".data ∧
    UserService.cacheKey "A" "2024-06-01" "2024-06-03" = "availability_A_2024-06-01_2024-06-03" ∧
    ("A" = "A" ∧ "2024-06-01" = "2024-06-01" ∧ "2024-06-03" = "2024-06-03") :=
  ⟨by decide, by decide, by decide,
    cacheKey_injective "A" "2024-06-01" "2024-06-03" "A" "2024-06-01" "2024-06-03"
      (by decide) (by decide) (by decide) (by decide) rfl⟩

/-! ## No false conflict -/

theorem sqlMatches_conflicts (hotelID : String) (checkIn checkOut : Date) (r : Reservation)
    (hlt : checkIn < checkOut)
    (h : UserService.sqlMatches hotelID checkIn checkOut r = true) :
    Spec.conflicts hotelID checkIn checkOut r := by
  simp only [UserService.sqlMatches, Bool.and_eq_true, Bool.or_eq_true, beq_iff_eq,
    decide_eq_true_eq] at h
  obtain ⟨⟨hid, hstatus⟩, hdates⟩ := h
  refine ⟨hid, hstatus, ?_⟩
  unfold Spec.overlaps
  rcases hdates with ⟨h1, h2⟩ | ⟨h1, h2⟩
  · exact ⟨Nat.lt_of_le_of_lt h1 hlt, h2⟩
  · exact ⟨h1, Nat.lt_of_lt_of_le hlt h2⟩

/-- C16: for a query with `checkIn < checkOut`, every row the `WHERE` clause of
`checkAvailability` matches is a confirmed reservation of the queried hotel
whose range overlaps `[checkIn, checkOut)` by the half-open test; hence when a
query that misses the cache is answered `available = false`, the store holds
such a reservation. -/
theorem no_false_conflict (toDate : String → Date) (env : Env) (st : State)
    (hotelID checkIn checkOut : String) (hlt : toDate checkIn < toDate checkOut) :
    (∀ r, UserService.sqlMatches hotelID (toDate checkIn) (toDate checkOut) r = true →
      Spec.conflicts hotelID (toDate checkIn) (toDate checkOut) r) ∧
    (Memcached.get env.cacheErr env.now st.cache
        (UserService.cacheKey hotelID checkIn checkOut) = none →
      (∃ o, (UserService.checkAvailability toDate env st hotelID checkIn checkOut).resp.body
          = some o ∧ o.lookup "available" = some (.bool false)) →
      ∃ r ∈ st.reservations, Spec.conflicts hotelID (toDate checkIn) (toDate checkOut) r) := by
  refine ⟨fun r h => sqlMatches_conflicts hotelID _ _ r hlt h, fun hmiss hfalse => ?_⟩
  obtain ⟨o, hbody, hav⟩ := hfalse
  by_cases hparams : hotelID = "" ∨ checkIn = "" ∨ checkOut = ""
  · simp only [UserService.checkAvailability, if_pos hparams, Option.some.injEq] at hbody
    subst hbody
    exact absurd hav (by decide)
  · have hh : hotelID ≠ "" := fun h => hparams (Or.inl h)
    have hin : checkIn ≠ "" := fun h => hparams (Or.inr (Or.inl h))
    have hout : checkOut ≠ "" := fun h => hparams (Or.inr (Or.inr h))
    rw [checkAvailability_miss toDate env st hotelID checkIn checkOut hh hin hout hmiss] at hbody
    simp only [Option.some.injEq] at hbody
    subst hbody
    simp only [UserService.resultMap, List.lookup, beq_self_eq_true, Option.some.injEq,
      JValue.bool.injEq] at hav
    unfold UserService.queryCount at hav
    cases hq : env.queryErr
    · rw [hq] at hav
      simp only [Bool.false_eq_true, if_false, Option.getD_some, beq_eq_false_iff_ne, ne_eq,
        List.length_eq_zero] at hav
      obtain ⟨r, hr⟩ := List.exists_mem_of_ne_nil _ hav
      rw [List.mem_filter] at hr
      exact ⟨r, hr.1, sqlMatches_conflicts hotelID _ _ r hlt hr.2⟩
    · rw [hq] at hav
      simp at hav

/-- C16 at a concrete input: hotel `A` has a confirmed stay over
`[2024-06-01, 2024-06-02)`; the query `(A, 2024-06-01, 2024-06-03)` misses the
cache and is answered `available = false`. -/
theorem no_false_conflict_witness :
    isoDate "2024-06-01" < isoDate "2024-06-03" ∧
    ∃ r ∈ (Scenario.bookedA 20240601 20240602).reservations,
      Spec.conflicts "A" (isoDate "2024-06-01") (isoDate "2024-06-03") r :=
  ⟨by decide,
    (no_false_conflict isoDate ⟨0, false, false⟩ (Scenario.bookedA 20240601 20240602)
      "A" "2024-06-01" "2024-06-03" (by decide)).2 (by decide)
      ⟨UserService.resultMap false "A" "2024-06-01" "2024-06-03", by decide, by decide⟩⟩

end HotelMicroservices
